import Mathlib

/-!
Verification development for the Streaming Chat Orchestrator.

This file gives a shallow embedding, in Lean 4, of the parts of the
orchestrator that the specification's claims are about:

* the per-chat Bus consumer callback (socket chat module), including the
  chat-id filter, completion marking, transcript appends and the
  thinking-token processor `processTokenStreamThinking`;
* the stop endpoint (`/stop`) with its upstream call outcomes and the
  session-targeted consumer cleanup `forceCleanupConsumerForSession`;
* the session catalog: `manageSessionWindow`, the `/chatsession` insert,
  the `/sessionName` RabbitMQ deduplication merge;
* the `/chat` admission check and `flushAllGlobalVariables`.

JavaScript string primitives (`includes`, `indexOf`, `substring`, `trim`,
`replace(/\D/g,'')`, `parseInt`) are modelled over `List Char` with the
clamping/negative-index behaviour of the originals.  Timestamps
(`Date.now()`, ISO strings) carry no logic in the modelled code paths and
are either omitted or threaded as an opaque `now : Nat` where a value is
embedded into an identifier.  Timers (`setTimeout`) and the push transport
are not modelled; the events a code path emits are returned as a list.
-/

set_option autoImplicit false

namespace Orchestrator

/-! ### JavaScript string primitives -/

/-- Whitespace test matching the characters JavaScript's `trim` removes
on the inputs that occur here (space, tab, newline, carriage return). -/
def jsWhitespace (c : Char) : Bool :=
  c = ' ' || c = '\t' || c = '\n' || c = '\r'

/-- `String.prototype.trim`. -/
def jsTrim (s : String) : String :=
  ⟨((s.data.dropWhile jsWhitespace).reverse.dropWhile jsWhitespace).reverse⟩

/-- First index (from the front) at which `pat` occurs in `hay`, as lists. -/
def firstOccurAux : List Char → List Char → Option Nat
  | hay, pat =>
    if pat.isPrefixOf hay then some 0
    else
      match hay with
      | [] => none
      | _ :: t => (firstOccurAux t pat).map (· + 1)

/-- `String.prototype.indexOf` (single argument); `-1` encoded as in JS. -/
def jsIndexOf (s pat : String) : Int :=
  match firstOccurAux s.data pat.data with
  | some i => (i : Int)
  | none => -1

/-- `String.prototype.indexOf(pat, fromIndex)`. -/
def jsIndexOfFrom (s pat : String) (fromIndex : Int) : Int :=
  let n := s.data.length
  let start : Nat := if fromIndex < 0 then 0 else min fromIndex.toNat n
  match firstOccurAux (s.data.drop start) pat.data with
  | some i => ((i + start : Nat) : Int)
  | none => -1

/-- `String.prototype.includes`. -/
def jsIncludes (s pat : String) : Bool :=
  jsIndexOf s pat ≥ 0

/-- `String.prototype.substring(a, b)` with JS clamping and swapping. -/
def jsSubstring (s : String) (a b : Int) : String :=
  let n := s.data.length
  let clamp : Int → Nat := fun x => if x < 0 then 0 else min x.toNat n
  let i := clamp a
  let j := clamp b
  ⟨(s.data.take (max i j)).drop (min i j)⟩

/-- `String.prototype.substring(a)` (to the end of the string). -/
def jsSubstringFrom (s : String) (a : Int) : String :=
  jsSubstring s a (s.data.length : Int)

/-- `String.prototype.toLowerCase` (ASCII). -/
def jsToLower (s : String) : String :=
  ⟨s.data.map Char.toLower⟩

/-- `s.split(sep)[0]` for a non-empty separator: the text before the first
occurrence of `sep`, or the whole string when `sep` does not occur. -/
def jsSplitHead (s sep : String) : String :=
  match firstOccurAux s.data sep.data with
  | some i => ⟨s.data.take i⟩
  | none => s

/-- `parseInt(s.replace(/\D/g, '')) || 0`: keep the digits, read them as a
decimal number, defaulting to `0` when no digit remains. -/
def parseDigits (s : String) : Nat :=
  (s.data.filter Char.isDigit).foldl (fun n c => n * 10 + (c.toNat - '0'.toNat)) 0

/-- JS string length (`.length`); the sources only handle ASCII here. -/
def jsLength (s : String) : Nat := s.data.length

/-! ### Association-list helpers

The in-memory tables (`globalChatHistory`, `sessionMessageCounts`, the
token-buffer `Map`, ...) are plain string-keyed maps; we model each as an
association list with first-match lookup and in-place update. -/

def lookupA {α : Type} (m : List (String × α)) (k : String) : Option α :=
  (m.find? (fun p => p.1 = k)).map (·.2)

/-- `m[k] = v` / `Map.set`: replace in place when the key is present,
append otherwise (JS object/Map insertion order). -/
def setA {α : Type} (m : List (String × α)) (k : String) (v : α) :
    List (String × α) :=
  match m with
  | [] => [(k, v)]
  | (k₀, v₀) :: rest =>
    if k₀ = k then (k, v) :: rest else (k₀, v₀) :: setA rest k v

/-- `delete m[k]` / `Map.delete`. -/
def eraseA {α : Type} (m : List (String × α)) (k : String) :
    List (String × α) :=
  m.filter (fun p => ¬ p.1 = k)

/-! ### Data model -/

/-- One entry of `globalChatHistory` (a transcript message).  Optional
fields model properties a given push site leaves undefined; ISO timestamp
fields are omitted (no modelled code path reads them). -/
structure Message where
  role : String
  content : String
  chat_id : Option String := none
  session_id : Option String := none
  user_id : Option String := none
  message_type : Option String := none
  isComplete : Option Bool := none
  token_count : Option Nat := none
  thinkingContent : Option String := none
  hasThinking : Option Bool := none
  total_tokens : Option Nat := none
  temp_file_name : Option String := none
  deriving DecidableEq, Repr

/-- One entry of `globalSessionNames`.  `created_at` / `updated_at` are
carried as opaque strings because the deduplication merge copies them. -/
structure CatSession where
  session_id : String
  title : String
  user_id : String
  current_chat_id : Option String := none
  total_chats : Option Nat := none
  created_at : String := ""
  updated_at : String := ""
  source : Option String := none
  titleSource : Option String := none
  title_updated_from_server : Option Bool := none
  originalSource : Option String := none
  originalTitle : Option String := none
  titleUpdated : Option Bool := none
  deriving DecidableEq, Repr

/-- One entry of `globalStreamingSessions` (per-chat consumer context). -/
structure SessionCtx where
  modelId : String
  chatId : String
  instanceId : Option String
  sessionId : String
  userId : String
  consumerTag : String
  deriving DecidableEq, Repr

/-- The per-session token buffer of the thinking processor
(`tokenBuffers` in the socket chat module). -/
structure TokenBuffer where
  tokens : List String
  fullContent : String
  model : String
  thinkingContent : String
  isInThinking : Bool
  hasThinkingStarted : Bool
  isInResponseTags : Bool
  hasResponseStarted : Bool
  pendingThinkingTokens : List String
  thinkingMessageId : Option String
  deriving DecidableEq, Repr

/-- A thinking/response tag pair of a model profile (`end_` models the
source field `end`, a reserved word in Lean). -/
structure TagPair where
  start : String
  end_ : String
  deriving DecidableEq, Repr

/-- One `MODEL_TYPES` profile. -/
structure ModelConfig where
  mtype : String
  prompt_format : String
  supports_thinking : Bool
  thinking_tags : TagPair
  response_tags : TagPair
  deriving DecidableEq, Repr

/-- One entry of the `globalModelList` cache. -/
structure ModelInfo where
  id : String
  name : String
  description : String
  deriving DecidableEq, Repr

/-- A message consumed from the Bus chat queue.  The JS payload is a
free-form JSON object; the handler only ever inspects these fields, each
of which may be absent.  (Payloads that are raw JSON strings rather than
objects are not modelled; no claim concerns them.) -/
structure BusMessage where
  mtype : Option String := none
  data : Option String := none
  content : Option String := none
  token : Option String := none
  status : Option String := none
  chat_id : Option String := none
  response : Option String := none
  message : Option String := none
  deriving DecidableEq, Repr

/-- Events pushed to a room over the socket channel.  Timestamp fields are
omitted; `messageId` and `isPendingThinking` appear only where the source
attaches them (absent models `undefined`/`false`). -/
inductive ChatEvent where
  | stream (room content : String) (isPendingThinking : Bool)
      (messageId : Option String)
  | moveToThinking (room content : String) (messageId : Option String)
      (pendingTokens : List String)
  | thinkingComplete (room : String)
  | complete (room : String) (completionType : Option String)
      (totalTokens : Nat)
  | cleanupGeneration (room reason : String)
  deriving DecidableEq, Repr

/-- The process-wide mutable state.  The first eleven fields live in the
chat module (`chat.js`); the last three live in the socket chat module and
are exactly the ones `flushAllGlobalVariables` cannot reach. -/
structure GlobalState where
  globalSessionNames : List CatSession
  globalChatHistory : List (String × List Message)
  sessionMessageCounts : List (String × Nat)
  sessionCacheTimestamp : List (String × Nat)
  foreignLastSessionIds : List (String × String)
  sessionCounters : List (String × Nat)
  currentUserId : Option String
  thinkingContentBuffer : List (String × String)
  globalModelList : List ModelInfo
  modelListCacheTimestamp : Option Nat
  globalPersonalizedFiles : List (String × List String)
  tokenBuffers : List (String × TokenBuffer)
  globalActiveConsumer : Option String
  globalStreamingSessions : List (String × SessionCtx)
  deriving DecidableEq, Repr

/-! ### Model profiles (`MODEL_TYPES`, chat module) -/

/-- The `MODEL_TYPES` table (chat module; the socket chat module imports
this same table). -/
def MODEL_TYPES : String → Option ModelConfig
  | "1" => some ⟨"llama", "llama", false, ⟨"", ""⟩, ⟨"", ""⟩⟩
  | "2" => some ⟨"gpt-oss", "gpt_oss", true,
      ⟨"<|channel|>analysis<|message|>", "<|end|>"⟩,
      ⟨"<|start|>assistant<|channel|>final<|message|>", "<|end|>"⟩⟩
  | "3" => some ⟨"QuickChat", "Quickchat", false, ⟨"", ""⟩, ⟨"", ""⟩⟩
  | "4" => some ⟨"Vision LLM", "Vision LLM", false, ⟨"", ""⟩, ⟨"", ""⟩⟩
  | "6" => some ⟨"qwen", "qwen", false, ⟨"", ""⟩, ⟨"", ""⟩⟩
  | "7" => some ⟨"qwen", "qwen", true, ⟨"<think>", "</think>"⟩, ⟨"", ""⟩⟩
  | "8" => some ⟨"qwen", "qwen", true, ⟨"<think>", "</think>"⟩, ⟨"", ""⟩⟩
  | "9" => some ⟨"llama", "llama", false, ⟨"", ""⟩, ⟨"", ""⟩⟩
  | "gpt-oss-20b" => some ⟨"gpt-oss", "gpt_oss", true,
      ⟨"<|channel|>analysis<|message|>", "<|end|>"⟩,
      ⟨"<|start|>assistant<|channel|>final<|message|>", "<|end|>"⟩⟩
  | "DeepSeek-R1-Distill-Llama-8B" => some ⟨"deepseek-thinking",
      "deepseek_llama", true, ⟨"<think>", "</think>"⟩, ⟨"", ""⟩⟩
  | "DeepSeek-R1-Distill-Qwen-7B" => some ⟨"deepseek-thinking",
      "qwen_deepseek", true, ⟨"<think>", "</think>"⟩, ⟨"", ""⟩⟩
  | "Qwen-1.5B-QuickChat" => some ⟨"QuickChat", "QuickChat", false,
      ⟨"", ""⟩, ⟨"", ""⟩⟩
  | "Qwen3-8B" => some ⟨"qwen", "qwen", true, ⟨"<think>", "</think>"⟩,
      ⟨"", ""⟩⟩
  | "Qwen3-8B-UD" => some ⟨"qwen", "qwen", true, ⟨"<think>", "</think>"⟩,
      ⟨"", ""⟩⟩
  | "Llama-3.1-8B-Instruct-UD" => some ⟨"llama", "llama", false,
      ⟨"", ""⟩, ⟨"", ""⟩⟩
  | "phi-4" => some ⟨"phi", "phi", false, ⟨"", ""⟩, ⟨"", ""⟩⟩
  | "Ministral-8B-Instruct-2410" => some ⟨"generic", "generic", false,
      ⟨"", ""⟩, ⟨"", ""⟩⟩
  | "Llama-3.2-1B-Instruct" => some ⟨"generic", "generic", false,
      ⟨"", ""⟩, ⟨"", ""⟩⟩
  | _ => none

/-- `getModelNameFromId` of the socket chat module.  A missing/empty model
id yields `"unknown"`; a direct `MODEL_TYPES` key is returned as-is;
otherwise the ordered fallback mapping is scanned with a case-insensitive
substring match (the id lower-cased, the keys as written). -/
def getModelNameFromId (modelId : String) : String :=
  if modelId = "" then "unknown"
  else if (MODEL_TYPES modelId).isSome then modelId
  else
    let modelMappings : List (String × String) :=
      [("1", "Llama-3.1-8B-Instruct-UD"), ("2", "gpt-oss-20b"),
       ("3", "Qwen-1.5B-QuickChat"), ("4", "InterVL-Vision-LLM"),
       ("gpt-oss", "gpt-oss-20b"), ("qwen", "Qwen-1.5B-QuickChat"),
       ("llama", "Llama-3.1-8B-Instruct-UD"),
       ("Vission-LLM", "InterVL-Vision-LLM")]
    let lowerModelId := jsToLower modelId
    match modelMappings.find? (fun p => jsIncludes lowerModelId p.1) with
    | some p => p.2
    | none => modelId

/-- `generateSessionTitle`: first 50 characters of the trimmed prompt,
`"..."`-suffixed when longer, `"New Chat"` when blank. -/
def generateSessionTitle (firstMessage : String) : String :=
  let trimmed := jsTrim firstMessage
  if trimmed = "" then "New Chat"
  else if jsLength trimmed > 50 then
    jsTrim (jsSubstring trimmed 0 50) ++ "..."
  else trimmed

/-! ### Stop-path cleanup (socket chat module) -/

/-- `removeIncompleteChatFromHistory`: drop every message of the targeted
chat that is not marked complete (`!msg.isComplete || msg.isComplete ===
false`, i.e. anything but `isComplete == true`). -/
def removeIncompleteChatFromHistory (userId sessionId chatId : String)
    (hist : List (String × List Message)) : List (String × List Message) :=
  let historyKey := userId ++ "_" ++ sessionId
  match lookupA hist historyKey with
  | none => hist
  | some msgs =>
    setA hist historyKey
      (msgs.filter (fun msg =>
        ¬ (msg.chat_id = some chatId ∧ ¬ msg.isComplete = some true)))

/-- `cleanupTokenBuffer`. -/
def cleanupTokenBuffer (sessionKey : String)
    (buffers : List (String × TokenBuffer)) : List (String × TokenBuffer) :=
  eraseA buffers sessionKey

/-- `forceCleanupConsumerForSession` (used by `/stop`): match the single
active consumer's tag against `userId_sessionId` (and, when a chat id is
given, `userId_sessionId_chatId`) by substring; on a match cancel it,
scrub the chat's incomplete messages (only when a chat id was given), and
drop the session's streaming context and token buffer.  Bus cancellation
errors are swallowed in the source, so cancellation is modelled as always
succeeding. -/
def forceCleanupConsumerForSession (userId sessionId : String)
    (chatId : Option String) (st : GlobalState) : Bool × GlobalState :=
  match st.globalActiveConsumer with
  | none => (false, st)
  | some consumerTag =>
    let sessionPattern := userId ++ "_" ++ sessionId
    let matchesSession := jsIncludes consumerTag sessionPattern
    let matchesChat :=
      match chatId with
      | some c => jsIncludes consumerTag (sessionPattern ++ "_" ++ c)
      | none => false
    if matchesSession || matchesChat then
      let st₁ := { st with globalActiveConsumer := none }
      let st₂ :=
        match chatId with
        | some c =>
          { st₁ with globalChatHistory :=
              (removeIncompleteChatFromHistory userId sessionId c
                st₁.globalChatHistory) }
        | none => st₁
      let sessionKey := userId ++ "_" ++ sessionId
      (true,
       { st₂ with
         globalStreamingSessions := eraseA st₂.globalStreamingSessions sessionKey,
         tokenBuffers := cleanupTokenBuffer sessionKey st₂.tokenBuffers })
    else (false, st)

/-! ### The `/stop` endpoint -/

/-- Outcome of the upstream `/stop` HTTP call: a 2xx reply, a reply with a
non-ok status, or a thrown fetch (network error / 100 s abort). -/
inductive UpstreamStopOutcome where
  | ok
  | httpError (code : Nat)
  | netError
  deriving DecidableEq, Repr

/-- The JSON body the `/stop` endpoint returns (fields the claims read). -/
structure StopResponse where
  httpStatus : Nat
  success : Bool
  cleanup_completed : Option Bool
  deriving DecidableEq, Repr

/-- Room targeted by stop cleanup (note the JS template stringifies an
absent `chat_id` as `"undefined"` when an instance id is present). -/
def stopRoomId (userId sessionId : String) (chatId instanceId : Option String) :
    String :=
  match instanceId with
  | some i =>
    "chat_" ++ userId ++ "_" ++ sessionId ++ "_" ++ (chatId.getD "undefined")
      ++ "_" ++ i
  | none =>
    match chatId with
    | some c => "chat_" ++ userId ++ "_" ++ sessionId ++ "_" ++ c
    | none => "chat_" ++ userId ++ "_" ++ sessionId

/-- The `/stop` endpoint.  `userId` is the resolved user (request body or
current user).  On an ok upstream reply with a session id: cleanup, a
`complete{user_stopped}` and a `cleanup-generation` emit, success.  On a
non-ok reply: a 500 failure, nothing else.  On a thrown upstream call with
a session id: the same local cleanup, `complete{timeout_stopped}`,
`cleanup-generation`, and success. -/
def stopEndpoint (userId : String) (sessionId chatId instanceId : Option String)
    (outcome : UpstreamStopOutcome) (st : GlobalState) :
    GlobalState × List ChatEvent × StopResponse :=
  match outcome with
  | .ok =>
    match sessionId with
    | some s =>
      let roomId := stopRoomId userId s chatId instanceId
      let (_, st') := forceCleanupConsumerForSession userId s chatId st
      (st',
       [ChatEvent.complete roomId (some "user_stopped") 0,
        ChatEvent.cleanupGeneration roomId "stop_requested"],
       { httpStatus := 200, success := true, cleanup_completed := some true })
    | none =>
      (st, [],
       { httpStatus := 200, success := true, cleanup_completed := some true })
  | .httpError _ =>
    (st, [],
     { httpStatus := 500, success := false, cleanup_completed := none })
  | .netError =>
    match sessionId with
    | some s =>
      let roomId := stopRoomId userId s chatId instanceId
      let (_, st') := forceCleanupConsumerForSession userId s chatId st
      (st',
       [ChatEvent.complete roomId (some "timeout_stopped") 0,
        ChatEvent.cleanupGeneration roomId "stop_timeout"],
       { httpStatus := 200, success := true, cleanup_completed := some true })
    | none =>
      (st, [],
       { httpStatus := 200, success := true, cleanup_completed := some true })

/-! ### Session window and `/chatsession` -/

/-- Result record of `manageSessionWindow` (the notification text is
omitted). -/
structure WindowResult where
  deletedSession : Option CatSession
  shouldNotifyUser : Bool
  isWarning : Bool
  sessionCount : Nat
  deriving DecidableEq, Repr

/-- First session with the numerically smallest id (`parseInt` of the
digits); the JS stable numeric sort followed by `[0]` picks exactly this
element. -/
def oldestSessionOf (l : List CatSession) : Option CatSession :=
  l.foldl
    (fun acc s =>
      match acc with
      | none => some s
      | some m =>
        if parseDigits s.session_id < parseDigits m.session_id then some s
        else acc)
    none

/-- `manageSessionWindow`: a warning when the user currently has exactly 9
sessions; eviction of the oldest session (with its transcript, message
count and thinking buffer) when the user has 25 or more; otherwise a
no-op. -/
def manageSessionWindow (userId : String) (st : GlobalState) :
    WindowResult × GlobalState :=
  let userSessions := st.globalSessionNames.filter (fun s => s.user_id = userId)
  if userSessions.length = 9 then
    ({ deletedSession := none, shouldNotifyUser := true, isWarning := true,
       sessionCount := userSessions.length + 1 }, st)
  else if userSessions.length ≥ 25 then
    match oldestSessionOf userSessions with
    | some oldest =>
      let oldestHistoryKey := userId ++ "_" ++ oldest.session_id
      let st' :=
        { st with
          globalSessionNames :=
            st.globalSessionNames.filter (fun s =>
              ¬ (s.user_id = userId ∧ s.session_id = oldest.session_id)),
          globalChatHistory := eraseA st.globalChatHistory oldestHistoryKey,
          sessionMessageCounts := eraseA st.sessionMessageCounts oldestHistoryKey,
          thinkingContentBuffer := eraseA st.thinkingContentBuffer oldestHistoryKey }
      ({ deletedSession := some oldest, shouldNotifyUser := true,
         isWarning := false, sessionCount := 10 }, st')
    | none =>
      ({ deletedSession := none, shouldNotifyUser := false, isWarning := false,
         sessionCount := userSessions.length + 1 }, st)
  else
    ({ deletedSession := none, shouldNotifyUser := false, isWarning := false,
       sessionCount := userSessions.length + 1 }, st)

/-- `getNextSessionId`: seed the user's counter from the foreign last
session id on first use, then increment and return it as a string. -/
def getNextSessionId (userId : String) (st : GlobalState) :
    String × GlobalState :=
  let cur :=
    match lookupA st.sessionCounters userId with
    | some n => n
    | none => parseDigits ((lookupA st.foreignLastSessionIds userId).getD "0")
  let next := cur + 1
  (toString next, { st with sessionCounters := setA st.sessionCounters userId next })

/-- The `/chatsession` endpoint body: run the sliding-window check, mint
the next id, and unshift the new locally-sourced session. -/
def chatsessionCreate (userId : String) (title : Option String)
    (st : GlobalState) : (String × WindowResult) × GlobalState :=
  let (windowResult, st₁) := manageSessionWindow userId st
  let (sessionId, st₂) := getNextSessionId userId st₁
  let sessionTitle :=
    match title with
    | some t => if t = "" then "Chat Session " ++ sessionId else t
    | none => "Chat Session " ++ sessionId
  let newSession : CatSession :=
    { session_id := sessionId, title := sessionTitle, user_id := userId,
      source := some "local", total_chats := some 0 }
  ((sessionId, windowResult),
   { st₂ with globalSessionNames := newSession :: st₂.globalSessionNames })

/-! ### `/chat` admission -/

/-- What the `/chat` endpoint decides before any transcript mutation or
upstream call: 400 on missing fields, 429 once the session's message count
reaches the limit, otherwise proceed (incrementing the count, which is the
first mutation of the accepted path). -/
structure ChatAdmitResult where
  httpStatus : Nat
  proceeds : Bool
  counts : List (String × Nat)
  deriving DecidableEq, Repr

/-- Admission prefix of `router.post('/chat')`: field validation, then
`sessionMessageCounts.get(key) || 0 >= 15` rejection, then the increment. -/
def chatAdmission (user_id session_id prompt : Option String)
    (counts : List (String × Nat)) : ChatAdmitResult :=
  match user_id, session_id, prompt with
  | some u, some s, some p =>
    if u = "" ∨ s = "" ∨ p = "" then
      { httpStatus := 400, proceeds := false, counts := counts }
    else
      let sessionKey := u ++ "_" ++ s
      let currentCount := (lookupA counts sessionKey).getD 0
      if currentCount ≥ 15 then
        { httpStatus := 429, proceeds := false, counts := counts }
      else
        { httpStatus := 200, proceeds := true,
          counts := setA counts sessionKey (currentCount + 1) }
  | _, _, _ => { httpStatus := 400, proceeds := false, counts := counts }

/-! ### `/sessionName` RabbitMQ deduplication -/

/-- One session of the transformed RabbitMQ session-index payload. -/
structure RSession where
  S_id : String
  title : String
  created_at : String := ""
  deriving DecidableEq, Repr

/-- Seed the deduplication `Map` with the user's existing catalog entries
(keyed by session id; a later duplicate id overwrites in place, as
`Map.set` does), remembering their original source and title. -/
def seedSessionMap (existing : List CatSession) :
    List (String × CatSession) :=
  existing.foldl
    (fun m s =>
      setA m s.session_id
        { s with originalSource := s.source, originalTitle := some s.title })
    []

/-- Fold one RabbitMQ session into the deduplication map: a new id is
added with the RabbitMQ title and source `rabbitmq`; an existing id keeps
its entry but the title is always overwritten with the RabbitMQ title. -/
def upsertRabbitSession (user_id : String) (m : List (String × CatSession))
    (s : RSession) : List (String × CatSession) :=
  match lookupA m s.S_id with
  | none =>
    setA m s.S_id
      { session_id := s.S_id, title := s.title, user_id := user_id,
        current_chat_id := none, total_chats := some 0,
        created_at := s.created_at, updated_at := s.created_at,
        source := some "rabbitmq", titleSource := some "rabbitmq" }
  | some existing =>
    let oldSource :=
      match existing.originalSource with
      | some x => if x = "" then existing.source else some x
      | none => existing.source
    setA m s.S_id
      { existing with
        title := s.title,
        updated_at := s.created_at,
        source := if oldSource = some "local" then
            some "local_updated_from_rabbitmq" else some "rabbitmq",
        titleSource := some "rabbitmq",
        titleUpdated := some (decide (¬ existing.title = s.title)) }

/-- Fold a whole payload into the map. -/
def applyRabbitPayload (user_id : String) (m : List (String × CatSession))
    (payload : List RSession) : List (String × CatSession) :=
  payload.foldl (upsertRabbitSession user_id) m

/-- The `/sessionName` deduplication step once a session-index payload has
arrived: merge the user's current sessions with the payload (RabbitMQ
titles win), answer with the merged list, and — in the detached background
task — replace the user's catalog entries with the merged ones. -/
def sessionNameSync (user_id : String) (payload : List RSession)
    (st : GlobalState) : List CatSession × GlobalState :=
  let currentUserSessions :=
    st.globalSessionNames.filter (fun s => s.user_id = user_id)
  let sessionMap :=
    applyRabbitPayload user_id (seedSessionMap currentUserSessions) payload
  let deduplicatedSessions := sessionMap.map (·.2)
  (deduplicatedSessions,
   { st with globalSessionNames :=
       deduplicatedSessions ++
         st.globalSessionNames.filter (fun s => ¬ s.user_id = user_id) })

/-- Catalog lookup by user and session id (first match). -/
def catalogFind (st : GlobalState) (user_id session_id : String) :
    Option CatSession :=
  st.globalSessionNames.find? (fun s =>
    s.user_id = user_id ∧ s.session_id = session_id)

/-! ### The thinking-token processor (socket chat module) -/

/-- A fresh token buffer (the object literal created on first use and on
the per-chat reset). -/
def freshTokenBuffer (model : String) : TokenBuffer :=
  { tokens := [], fullContent := "", model := model, thinkingContent := "",
    isInThinking := false, hasThinkingStarted := false,
    isInResponseTags := false, hasResponseStarted := false,
    pendingThinkingTokens := [], thinkingMessageId := none }

/-- The assistant message `processTokenStreamThinking` creates when no
open assistant message exists at the retroactive move. -/
def newThinkingMessage (thinkingOnly chatId sessionId userId : String) :
    Message :=
  { role := "assistant", content := "", thinkingContent := some thinkingOnly,
    hasThinking := some true, message_type := some "assistant_with_thinking",
    chat_id := some chatId, session_id := some sessionId,
    user_id := some userId, isComplete := some false, token_count := some 0 }

/-- Result of one thinking-processor step: the transcript map, the updated
buffer, the events it emitted itself, and the processed token it returns
to the caller. -/
structure ThinkingStepResult where
  hist : List (String × List Message)
  buffer : TokenBuffer
  events : List ChatEvent
  ret : String

/-- Thinking-start branch of the processor (reached when the start tag
has appeared in `fullContent` and thinking has not started yet): the empty
`<think></think>` edge case strips the pair; otherwise thinking mode is
entered, any text before the tag is streamed, and accumulation begins.
(`startIndex`/`endIndex` of the source appear inlined.) -/
def processThinkingStart (tt : TagPair) (sessionKey roomId : String)
    (now : Nat) (hist : List (String × List Message)) (b : TokenBuffer) :
    ThinkingStepResult :=
  if ¬ tt.end_ = "" ∧ jsIncludes b.fullContent tt.end_ ∧
      jsTrim (jsSubstring b.fullContent
        (jsIndexOf b.fullContent tt.start + (jsLength tt.start : Int))
        (jsIndexOfFrom b.fullContent tt.end_ (jsIndexOf b.fullContent tt.start)))
      = "" then
    -- Empty thinking pair: strip it and stream the remainder.
    ⟨hist, b, [],
     if ¬ jsTrim (jsSubstring b.fullContent 0 (jsIndexOf b.fullContent tt.start)
          ++ jsSubstringFrom b.fullContent
            (jsIndexOfFrom b.fullContent tt.end_
              (jsIndexOf b.fullContent tt.start) + (jsLength tt.end_ : Int)))
        = "" then
       jsSubstring b.fullContent 0 (jsIndexOf b.fullContent tt.start)
         ++ jsSubstringFrom b.fullContent
           (jsIndexOfFrom b.fullContent tt.end_
             (jsIndexOf b.fullContent tt.start) + (jsLength tt.end_ : Int))
     else ""⟩
  else
    ⟨hist,
     { b with
       isInThinking := true, hasThinkingStarted := true,
       thinkingMessageId :=
         some ("thinking_" ++ sessionKey ++ "_" ++ toString now),
       thinkingContent :=
         (jsSubstringFrom b.fullContent
           (jsIndexOf b.fullContent tt.start + (jsLength tt.start : Int))) },
     if ¬ jsTrim (jsSubstring b.fullContent 0 (jsIndexOf b.fullContent tt.start))
        = "" then
       [ChatEvent.stream roomId
          (jsSubstring b.fullContent 0 (jsIndexOf b.fullContent tt.start))
          false none]
     else [],
     ""⟩

/-- Return-value selection after thinking end detection: response-start
handling for standard models, direct response entry for gpt-oss, then the
fallthrough return (the source's no-response-tags branch and its final
fallthrough return identical values and are rendered as one else).  `evs`
are the events already emitted, `b₃` the buffer with thinking closed. -/
def processAfterThinkingEnd (rt : TagPair) (gpt : Bool)
    (afterThinking : String) (evs : List ChatEvent)
    (hist : List (String × List Message)) (b₃ : TokenBuffer) :
    ThinkingStepResult :=
  if ¬ gpt = true ∧ ¬ rt.start = "" ∧ jsIncludes afterThinking rt.start then
    if ¬ jsTrim (jsSubstring afterThinking 0 (jsIndexOf afterThinking rt.start))
        = "" then
      ⟨hist, b₃, evs,
       jsSubstring afterThinking 0 (jsIndexOf afterThinking rt.start)⟩
    else
      ⟨hist, { b₃ with isInResponseTags := true, hasResponseStarted := true },
       evs,
       if ¬ jsTrim (jsSubstringFrom afterThinking
            (jsIndexOf afterThinking rt.start + (jsLength rt.start : Int)))
          = "" then
         jsSubstringFrom afterThinking
           (jsIndexOf afterThinking rt.start + (jsLength rt.start : Int))
       else ""⟩
  else if gpt then
    ⟨hist, { b₃ with isInResponseTags := true, hasResponseStarted := true },
     evs, if ¬ jsTrim afterThinking = "" then afterThinking else ""⟩
  else
    ⟨hist, b₃, evs, if ¬ jsTrim afterThinking = "" then afterThinking else ""⟩

/-- Transcript persistence at the retroactive move: attach the extracted
interior to the open assistant message, or create one.  (The source's
`historyKey` is `sessionKey` itself; the user id is the part of the key
before the first underscore.) -/
def persistThinkingContent (thinkingOnly sessionKey chatId sessionId : String)
    (hist : List (String × List Message)) : List (String × List Message) :=
  match ((lookupA hist sessionKey).getD []).getLast? with
  | some lastMessage =>
    if lastMessage.role = "assistant" ∧
        ¬ lastMessage.isComplete = some true then
      setA hist sessionKey
        (((lookupA hist sessionKey).getD []).dropLast ++
          [{ lastMessage with
             thinkingContent := some thinkingOnly,
             hasThinking := some true }])
    else
      setA hist sessionKey
        (((lookupA hist sessionKey).getD []) ++
          [newThinkingMessage thinkingOnly chatId sessionId
            (jsSplitHead sessionKey "_")])
  | none =>
    setA hist sessionKey
      (((lookupA hist sessionKey).getD []) ++
        [newThinkingMessage thinkingOnly chatId sessionId
          (jsSplitHead sessionKey "_")])

/-- Whether an in-thinking token is optimistically streamed and recorded
(`token.trim() && token !== thinking_tags.start && token !==
thinking_tags.end`). -/
def thinkPush (tt : TagPair) (token : String) : Bool :=
  ¬ jsTrim token = "" ∧ ¬ token = tt.start ∧ ¬ token = tt.end_

/-- The in-thinking buffer after accumulating a token: `thinkingContent`
always grows; the token is recorded as pending when `thinkPush` holds. -/
def bufAccum (tt : TagPair) (token : String) (b : TokenBuffer) : TokenBuffer :=
  if thinkPush tt token then
    { b with
      thinkingContent := b.thinkingContent ++ token,
      pendingThinkingTokens := b.pendingThinkingTokens ++ [token] }
  else { b with thinkingContent := b.thinkingContent ++ token }

/-- The optimistic main-lane emission of an in-thinking token. -/
def pendingEmit (tt : TagPair) (token roomId : String) (b : TokenBuffer) :
    List ChatEvent :=
  if thinkPush tt token then
    [ChatEvent.stream roomId token true b.thinkingMessageId]
  else []

/-- The literal response-start signal the gpt-oss profile treats as the
thinking terminator. -/
def gptOssResponseSignal : String := "<|channel|>final<|message|>"

/-- The gpt-oss special-casing test on the buffer's model. -/
def isGptOssModel (b : TokenBuffer) : Bool :=
  b.model = "gpt-oss-20b" ∨ b.model = "3"

/-- The buffer after thinking ends: thinking closed, pending tracking
reset. -/
def closeThinkingBuffer (b₂ : TokenBuffer) : TokenBuffer :=
  { b₂ with
    isInThinking := false, pendingThinkingTokens := [],
    thinkingMessageId := none }

/-- Thinking-end handling once an end marker was found at `endIndex` of
the accumulated content (`skip` is the marker whose length is skipped):
when the trimmed interior is non-empty, emit the retroactive move and
`thinking_complete` and persist the interior; then hand the remainder to
the response-tag selection. -/
def finishThinkingEnd (rt : TagPair) (gpt : Bool) (endIndex : Int)
    (skip sessionKey roomId chatId sessionId : String)
    (evs₁ : List ChatEvent) (hist : List (String × List Message))
    (b₂ : TokenBuffer) : ThinkingStepResult :=
  if ¬ jsTrim (jsSubstring b₂.thinkingContent 0 endIndex) = "" then
    processAfterThinkingEnd rt gpt
      (jsSubstringFrom b₂.thinkingContent (endIndex + (jsLength skip : Int)))
      (evs₁ ++
        [ChatEvent.moveToThinking roomId
           (jsTrim (jsSubstring b₂.thinkingContent 0 endIndex))
           b₂.thinkingMessageId b₂.pendingThinkingTokens,
         ChatEvent.thinkingComplete roomId])
      (persistThinkingContent
        (jsTrim (jsSubstring b₂.thinkingContent 0 endIndex))
        sessionKey chatId sessionId hist)
      (closeThinkingBuffer b₂)
  else
    processAfterThinkingEnd rt gpt
      (jsSubstringFrom b₂.thinkingContent (endIndex + (jsLength skip : Int)))
      evs₁ hist (closeThinkingBuffer b₂)

/-- In-thinking branch: accumulate the token, optimistically stream it to
the main lane (recording it as pending), detect the thinking end — the
gpt-oss response signal for that profile, the standard end tag otherwise
— and on detection run the thinking-end handling. -/
def processTokenInThinking (tt rt : TagPair)
    (token sessionKey roomId chatId sessionId : String)
    (hist : List (String × List Message)) (b : TokenBuffer) :
    ThinkingStepResult :=
  if isGptOssModel b = true ∧
      jsIncludes (bufAccum tt token b).thinkingContent gptOssResponseSignal
      then
    finishThinkingEnd rt true
      (jsIndexOf (bufAccum tt token b).thinkingContent gptOssResponseSignal)
      gptOssResponseSignal sessionKey roomId chatId sessionId
      (pendingEmit tt token roomId b) hist (bufAccum tt token b)
  else if ¬ isGptOssModel b = true ∧ ¬ tt.end_ = "" ∧
      jsIncludes (bufAccum tt token b).thinkingContent tt.end_ then
    finishThinkingEnd rt false
      (jsIndexOf (bufAccum tt token b).thinkingContent tt.end_)
      tt.end_ sessionKey roomId chatId sessionId
      (pendingEmit tt token roomId b) hist (bufAccum tt token b)
  else ⟨hist, bufAccum tt token b, pendingEmit tt token roomId b, ""⟩

/-- The value returned at a response-end detection: the trimmed content
between the response tags (or before the end tag), falling back to the
content after the end tag. -/
def responseEndRet (rt : TagPair) (b : TokenBuffer) : String :=
  let responseEndIndex := jsIndexOf b.fullContent rt.end_
  let responseContent := jsSubstring b.fullContent 0 responseEndIndex
  let responseStartIndex := jsIndexOf responseContent rt.start
  let pureResponseContent :=
    if responseStartIndex ≥ 0 then
      jsTrim (jsSubstringFrom responseContent
        (responseStartIndex + (jsLength rt.start : Int)))
    else jsTrim responseContent
  let afterResponse :=
    jsSubstringFrom b.fullContent (responseEndIndex + (jsLength rt.end_ : Int))
  if ¬ pureResponseContent = "" then pureResponseContent
  else if ¬ jsTrim afterResponse = "" then afterResponse
  else ""

/-- Response-tag phase outside thinking: response-start detection,
response-end extraction, in-response passthrough, and normal streaming. -/
def processResponsePhase (rt : TagPair) (token roomId : String)
    (hist : List (String × List Message)) (b : TokenBuffer) :
    ThinkingStepResult :=
  if ¬ rt.start = "" ∧ ¬ b.hasResponseStarted = true ∧
      jsIncludes b.fullContent rt.start then
    ⟨hist, { b with isInResponseTags := true, hasResponseStarted := true },
     if ¬ jsTrim (jsSubstring b.fullContent 0 (jsIndexOf b.fullContent rt.start))
        = "" then
       [ChatEvent.stream roomId
          (jsSubstring b.fullContent 0 (jsIndexOf b.fullContent rt.start))
          false none]
     else [],
     if ¬ jsTrim (jsSubstringFrom b.fullContent
          (jsIndexOf b.fullContent rt.start + (jsLength rt.start : Int))) = ""
     then
       jsSubstringFrom b.fullContent
         (jsIndexOf b.fullContent rt.start + (jsLength rt.start : Int))
     else ""⟩
  else if b.isInResponseTags = true ∧ ¬ rt.end_ = "" ∧
      jsIncludes b.fullContent rt.end_ then
    ⟨hist, { b with isInResponseTags := false }, [], responseEndRet rt b⟩
  else if b.isInResponseTags then ⟨hist, b, [], token⟩
  else ⟨hist, b, [], token⟩

/-- The body of `processTokenStreamThinking` after the buffer has been
fetched/created, reset on model switch, and extended with the token, for a
model whose profile supports thinking.  Mirrors the source's branch
structure: thinking-start detection (with the empty `<think></think>`
edge case), in-thinking accumulation with optimistic pending emission and
end detection (standard end tag, or the gpt-oss response signal), then the
response-tag states. -/
def processTokenCore (cfg : ModelConfig)
    (token sessionKey roomId chatId sessionId : String) (now : Nat)
    (hist : List (String × List Message)) (b : TokenBuffer) :
    ThinkingStepResult :=
  if ¬ cfg.thinking_tags.start = "" ∧
      jsIncludes b.fullContent cfg.thinking_tags.start ∧
      ¬ b.hasThinkingStarted = true then
    processThinkingStart cfg.thinking_tags sessionKey roomId now hist b
  else if b.isInThinking then
    processTokenInThinking cfg.thinking_tags cfg.response_tags token
      sessionKey roomId chatId sessionId hist b
  else processResponsePhase cfg.response_tags token roomId hist b

/-- The session's buffer as it stands when the core step runs: fetched or
created, reset when the model switched, and extended with the token. -/
def preparedBuffer (sessionKey modelId token : String)
    (buffers : List (String × TokenBuffer)) : TokenBuffer :=
  let buffer₀ :=
    match lookupA buffers sessionKey with
    | some b => b
    | none => freshTokenBuffer (getModelNameFromId modelId)
  let currentModel := getModelNameFromId modelId
  let buffer₁ :=
    if ¬ buffer₀.model = currentModel then
      { buffer₀ with
        model := currentModel, isInThinking := false,
        hasThinkingStarted := false, isInResponseTags := false,
        hasResponseStarted := false, thinkingContent := "",
        pendingThinkingTokens := [], thinkingMessageId := none }
    else buffer₀
  { buffer₁ with
    tokens := buffer₁.tokens ++ [token],
    fullContent := buffer₁.fullContent ++ token }

/-- `processTokenStreamThinking`: get-or-create the session's token
buffer, reset its thinking state when the model switched, record the
token, and — for thinking-capable models — run the core step.  `now`
models `Date.now()` (only embedded into the thinking message id). -/
def processTokenStreamThinking
    (token sessionKey modelId roomId chatId sessionId : String) (now : Nat)
    (hist : List (String × List Message))
    (buffers : List (String × TokenBuffer)) : ThinkingStepResult ×
      List (String × TokenBuffer) :=
  if token = "" then (⟨hist, freshTokenBuffer "", [], ""⟩, buffers)
  else
    match MODEL_TYPES (preparedBuffer sessionKey modelId token buffers).model
      with
    | none =>
      (⟨hist, preparedBuffer sessionKey modelId token buffers, [], token⟩,
       setA buffers sessionKey (preparedBuffer sessionKey modelId token buffers))
    | some modelConfig =>
      if ¬ modelConfig.supports_thinking then
        (⟨hist, preparedBuffer sessionKey modelId token buffers, [], token⟩,
         setA buffers sessionKey (preparedBuffer sessionKey modelId token buffers))
      else
        (processTokenCore modelConfig token sessionKey roomId chatId
           sessionId now hist (preparedBuffer sessionKey modelId token buffers),
         setA buffers sessionKey
           (processTokenCore modelConfig token sessionKey roomId chatId
             sessionId now hist
             (preparedBuffer sessionKey modelId token buffers)).buffer)

/-! ### The Bus chat-queue consumer callback (socket chat module) -/

/-- The closure variables of one chat consumer. -/
structure ConsumerCtx where
  userId : String
  sessionId : String
  chatId : String
  instanceId : Option String
  roomId : String
  prompt : String
  deriving DecidableEq, Repr

/-- The consumer callback's own mutable locals. -/
structure HandlerLocal where
  messageCount : Nat
  isStreamingComplete : Bool
  deriving DecidableEq, Repr

/-- JS truthiness of an optional string field. -/
def truthyS (o : Option String) : Bool :=
  match o with
  | some s => ¬ s = ""
  | none => false

/-- A simplified `JSON.stringify` over the fields the model carries, in
struct order; the claims only rely on the result being a non-blank
brace-delimited string. -/
def jsonStringifyBus (m : BusMessage) : String :=
  let fields : List (String × Option String) :=
    [("type", m.mtype), ("data", m.data), ("content", m.content),
     ("token", m.token), ("status", m.status), ("chat_id", m.chat_id),
     ("response", m.response), ("message", m.message)]
  let parts := fields.filterMap (fun p =>
    p.2.map (fun v => "\"" ++ p.1 ++ "\":\"" ++ v ++ "\""))
  "\x7b" ++ String.intercalate "," parts ++ "\x7d"

/-- Response-content extraction (the `PRIORITY` cascade); a message
matching no field falls through to `JSON.stringify`. -/
def extractResponseContent (m : BusMessage) : String :=
  if m.mtype = some "token" ∧ truthyS m.data then m.data.getD ""
  else if truthyS m.data then m.data.getD ""
  else if truthyS m.response then m.response.getD ""
  else if truthyS m.content then m.content.getD ""
  else if truthyS m.message then m.message.getD ""
  else jsonStringifyBus m

/-- The strict completion-signal test. -/
def isCompletionMessage (m : BusMessage) : Bool :=
  (m.mtype = some "status" ∧ m.token = some "done") ∨
    (m.mtype = some "completion" ∧ m.status = some "done")

/-- Walk the reversed transcript and complete the first matching user
message (`for i from end ... break`). -/
def markUserCompleteAux (chatId : String) : List Message → List Message
  | [] => []
  | m :: rest =>
    if m.role = "user" ∧ m.chat_id = some chatId ∧ ¬ m.isComplete = some true
    then { m with isComplete := some true } :: rest
    else m :: markUserCompleteAux chatId rest

def markUserComplete (chatId : String) (msgs : List Message) : List Message :=
  (markUserCompleteAux chatId msgs.reverse).reverse

/-- Replace the first catalog entry satisfying `p` (the `findIndex` +
in-place mutation idiom). -/
def updateFirstSession (p : CatSession → Bool) (f : CatSession → CatSession) :
    List CatSession → List CatSession
  | [] => []
  | s :: rest =>
    if p s then f s :: rest else s :: updateFirstSession p f rest

/-- The new assistant message pushed by the streaming append. -/
def newStreamMessage (ctx : ConsumerCtx) (responseContent : String)
    (isTokenMessage : Bool) : Message :=
  { role := "assistant", content := responseContent,
    message_type :=
      some (if isTokenMessage then "streaming_tokens" else "streaming_content"),
    chat_id := some ctx.chatId, session_id := some ctx.sessionId,
    user_id := some ctx.userId, isComplete := some false,
    token_count := some 1 }

/-- `messageCount++`. -/
def bumpCount (loc : HandlerLocal) : HandlerLocal :=
  { loc with messageCount := loc.messageCount + 1 }

/-- The consumer's chat-id filter (`if (message.chat_id) { if
(String(message.chat_id) !== expectedChatId) return; }`): only messages
that carry a *truthy* `chat_id` differing from the consumer's are
filtered; an absent or falsy (empty-string) `chat_id` passes. -/
def chatMismatch (ctx : ConsumerCtx) (msg : BusMessage) : Bool :=
  match msg.chat_id with
  | some c => if c = "" then false else decide (¬ c = ctx.chatId)
  | none => false

/-- The session transcript key of a consumer. -/
def historyKeyOf (ctx : ConsumerCtx) : String :=
  ctx.userId ++ "_" ++ ctx.sessionId

/-- Transcript update at a completion signal: finish the trailing
assistant message (with `total_tokens` from `token_count || 1`) and the
matching user message. -/
def completionHistory (ctx : ConsumerCtx)
    (hist : List (String × List Message)) : List (String × List Message) :=
  match lookupA hist (historyKeyOf ctx) with
  | some msgs =>
    if msgs.length > 0 then
      let msgs₁ :=
        match msgs.getLast? with
        | some lastMessage =>
          if lastMessage.role = "assistant" then
            msgs.dropLast ++
              [{ lastMessage with
                 isComplete := some true,
                 message_type := some "complete_response",
                 total_tokens :=
                   some (match lastMessage.token_count with
                         | some n => if n = 0 then 1 else n
                         | none => 1) }]
          else msgs
        | none => msgs
      setA hist (historyKeyOf ctx) (markUserComplete ctx.chatId msgs₁)
    else hist
  | none => hist

/-- The streaming transcript append: extend the open assistant message
or start one. -/
def appendStreamMsgs (ctx : ConsumerCtx) (responseContent : String)
    (isTokenMessage : Bool) (msgs : List Message) : List Message :=
  match msgs.getLast? with
  | some lastMessage =>
    if lastMessage.role = "assistant" ∧
        ¬ lastMessage.isComplete = some true then
      msgs.dropLast ++
        [{ lastMessage with
           content := lastMessage.content ++ responseContent,
           token_count := some ((lastMessage.token_count.getD 0) + 1),
           message_type :=
             if isTokenMessage then some "streaming_tokens"
             else lastMessage.message_type }]
    else msgs ++ [newStreamMessage ctx responseContent isTokenMessage]
  | none => msgs ++ [newStreamMessage ctx responseContent isTokenMessage]

/-- The catalog after the low-`messageCount` session bootstrap (create
the session from the user prompt, or refresh its current chat id). -/
def sessionBootstrapNames (ctx : ConsumerCtx) (messageCount : Nat)
    (responseContent : String) (st₁ : GlobalState) : List CatSession :=
  if messageCount ≤ 3 ∧ jsLength (jsTrim responseContent) > 2 then
    if (st₁.globalSessionNames.find? (fun s =>
        s.session_id = ctx.sessionId ∧ s.user_id = ctx.userId)).isSome then
      updateFirstSession
        (fun s => decide (s.session_id = ctx.sessionId ∧
          s.user_id = ctx.userId))
        (fun s => { s with current_chat_id := some ctx.chatId })
        st₁.globalSessionNames
    else
      let userMessage :=
        ((lookupA st₁.globalChatHistory (historyKeyOf ctx)).getD []).find?
          (fun m => m.role = "user" ∧ m.chat_id = some ctx.chatId)
      let userPrompt :=
        match userMessage with
        | some m => m.content
        | none => ctx.prompt
      { session_id := ctx.sessionId, title := generateSessionTitle userPrompt,
        user_id := ctx.userId, current_chat_id := some ctx.chatId,
        total_chats := some 1 } :: st₁.globalSessionNames
  else st₁.globalSessionNames

/-- The model id of the consumer's streaming-session context. -/
def streamingModelId (st : GlobalState) (sessionKey : String) : String :=
  match lookupA st.globalStreamingSessions sessionKey with
  | some c => c.modelId
  | none => "unknown"

/-- The caller-side trim-guarded stream emit of the processed token. -/
def callerEmit (roomId ret : String) : List ChatEvent :=
  if ¬ jsTrim ret = "" then [ChatEvent.stream roomId ret false none]
  else []

/-- The process state after the transcript append and the session
bootstrap, just before thinking processing. -/
def handlerPreState (ctx : ConsumerCtx) (st : GlobalState)
    (messageCount : Nat) (msg : BusMessage) : GlobalState :=
  let responseContent := extractResponseContent msg
  let st₁ :=
    { st with globalChatHistory :=
        (setA st.globalChatHistory (historyKeyOf ctx)
          (appendStreamMsgs ctx responseContent (msg.mtype = some "token")
            ((lookupA st.globalChatHistory (historyKeyOf ctx)).getD []))) }
  { st₁ with globalSessionNames :=
      (sessionBootstrapNames ctx messageCount responseContent st₁) }

/-- The thinking-processor invocation of the content path. -/
def handlerThinkingResult (ctx : ConsumerCtx) (st : GlobalState)
    (messageCount : Nat) (msg : BusMessage) (now : Nat) :
    ThinkingStepResult × List (String × TokenBuffer) :=
  processTokenStreamThinking (extractResponseContent msg) (historyKeyOf ctx)
    (streamingModelId (handlerPreState ctx st messageCount msg)
      (historyKeyOf ctx))
    ctx.roomId ctx.chatId ctx.sessionId now
    (handlerPreState ctx st messageCount msg).globalChatHistory
    (handlerPreState ctx st messageCount msg).tokenBuffers

/-- The content path of the consumer callback: transcript append, session
bootstrap, thinking processing, and the guarded stream emit. -/
def handlerContent (ctx : ConsumerCtx) (st : GlobalState)
    (messageCount : Nat) (msg : BusMessage) (now : Nat) :
    GlobalState × List ChatEvent :=
  ({ handlerPreState ctx st messageCount msg with
     globalChatHistory := (handlerThinkingResult ctx st messageCount msg now).1.hist,
     tokenBuffers := (handlerThinkingResult ctx st messageCount msg now).2 },
   (handlerThinkingResult ctx st messageCount msg now).1.events ++
     callerEmit ctx.roomId (handlerThinkingResult ctx st messageCount msg now).1.ret)

/-- One delivery of the Bus chat-queue consumer callback: the
streaming-complete guard, the `chat_id` filter, strict completion
handling (transcript completion marking plus the `complete` emit), and
the content path (transcript append, the low-`messageCount` session
bootstrap, thinking processing, and the trim-guarded stream emit).
Timers (completion/safety timeouts) are not modelled. -/
def handlerStep (ctx : ConsumerCtx) (st : GlobalState) (loc : HandlerLocal)
    (msg : BusMessage) (now : Nat) :
    GlobalState × HandlerLocal × List ChatEvent :=
  if loc.isStreamingComplete then (st, loc, [])
  else if chatMismatch ctx msg then (st, bumpCount loc, [])
  else if isCompletionMessage msg then
    ({ st with globalChatHistory := completionHistory ctx st.globalChatHistory },
     { bumpCount loc with isStreamingComplete := true },
     [ChatEvent.complete ctx.roomId msg.mtype (loc.messageCount + 1)])
  else if extractResponseContent msg = "" then (st, bumpCount loc, [])
  else
    ((handlerContent ctx st (loc.messageCount + 1) msg now).1,
     bumpCount loc,
     (handlerContent ctx st (loc.messageCount + 1) msg now).2)

/-- A run of the consumer over a list of Bus deliveries, accumulating the
emitted events (`Date.now()` is modelled by the running message count). -/
def runHandler (ctx : ConsumerCtx) (st : GlobalState) (loc : HandlerLocal) :
    List BusMessage → GlobalState × HandlerLocal × List ChatEvent
  | [] => (st, loc, [])
  | m :: rest =>
    let r := handlerStep ctx st loc m loc.messageCount
    let r₂ := runHandler ctx r.1 r.2.1 rest
    (r₂.1, r₂.2.1, r.2.2 ++ r₂.2.2)

/-! ### Trace bookkeeping for the thinking soundness property -/

/-- Fold one event into the list of pending-thinking stream contents: a
pending-marked stream emission records its content, a retroactive move
clears the record, all other events leave it unchanged. -/
def pendingStep (acc : List String) (e : ChatEvent) : List String :=
  match e with
  | .stream _ c true _ => acc ++ [c]
  | .moveToThinking _ _ _ _ => []
  | _ => acc

def pendingFold (acc : List String) (evs : List ChatEvent) : List String :=
  evs.foldl pendingStep acc

/-- Soundness of a trace with respect to the retroactive-move protocol:
every `move_to_thinking` event carries a non-empty content, lists exactly
the pending-thinking tokens streamed since thinking began (equivalently,
since the last move), and is immediately followed by `thinking_complete`. -/
def goodTrace : List String → List ChatEvent → Prop
  | _, [] => True
  | acc, e :: rest =>
    match e with
    | .moveToThinking _ content _ pendingTokens =>
      ¬ content = "" ∧ pendingTokens = acc ∧
      (match rest with
       | .thinkingComplete _ :: _ => True
       | _ => False) ∧
      goodTrace [] rest
    | .stream _ c true _ => goodTrace (acc ++ [c]) rest
    | _ => goodTrace acc rest

/-- The contents of the `stream` events of a trace, in order. -/
def streamContents (evs : List ChatEvent) : List String :=
  evs.filterMap (fun e =>
    match e with
    | .stream _ c _ _ => some c
    | _ => none)

/-- The per-session model name the wrapper will compute for this consumer
(the streaming-session context's model id, defaulting to `"unknown"`). -/
def sessionModelOf (st : GlobalState) (sessionKey : String) : String :=
  getModelNameFromId
    (((lookupA st.globalStreamingSessions sessionKey).map (·.modelId)).getD
      "unknown")

/-- Invariant tying the session's token buffer to the events emitted so
far: when thinking is open, the recorded pending tokens are exactly the
pending stream contents since the last move; before thinking ever starts,
nothing is pending; and the buffer's model matches the consumer's, so the
mid-run model-switch reset cannot fire. -/
def handlerInv (ctx : ConsumerCtx) (st : GlobalState)
    (trace : List ChatEvent) : Prop :=
  let sessionKey := ctx.userId ++ "_" ++ ctx.sessionId
  match lookupA st.tokenBuffers sessionKey with
  | none => pendingFold [] trace = []
  | some b =>
    (b.isInThinking = true → b.pendingThinkingTokens = pendingFold [] trace) ∧
    (b.hasThinkingStarted = false →
      b.pendingThinkingTokens = [] ∧ pendingFold [] trace = []) ∧
    (b.isInThinking = true → b.hasThinkingStarted = true) ∧
    b.model = sessionModelOf st sessionKey

/-- Concatenation (as characters) of the `content` fields of a
transcript. -/
def concatContents (msgs : List Message) : List Char :=
  (msgs.map (fun m => m.content.data)).flatten

/-! ### Logout flush -/

/-- `flushAllGlobalVariables`: clear every global of the chat module.  The
socket chat module's `tokenBuffers`, `globalActiveConsumer` and
`globalStreamingSessions` are not visible from the chat module and are
left untouched. -/
def flushAllGlobalVariables (st : GlobalState) : GlobalState :=
  { st with
    globalSessionNames := [],
    globalChatHistory := [],
    sessionMessageCounts := [],
    sessionCacheTimestamp := [],
    foreignLastSessionIds := [],
    sessionCounters := [],
    currentUserId := none,
    thinkingContentBuffer := [],
    globalModelList := [],
    modelListCacheTimestamp := none,
    globalPersonalizedFiles := [] }

/-! ### Helper lemmas -/

theorem lookupA_setA_self {α : Type} (m : List (String × α)) (k : String)
    (v : α) : lookupA (setA m k v) k = some v := by
  induction m with
  | nil => simp [setA, lookupA, List.find?]
  | cons p rest ih =>
    by_cases h : p.1 = k
    · simp [setA, h, lookupA, List.find?]
    · simpa [setA, h, lookupA, List.find?] using ih

theorem lookupA_setA_ne {α : Type} (m : List (String × α)) (k k' : String)
    (v : α) (h : ¬ k' = k) : lookupA (setA m k v) k' = lookupA m k' := by
  induction m with
  | nil =>
    have hk : ¬ k = k' := fun h₂ => h h₂.symm
    simp [setA, lookupA, List.find?, hk]
  | cons p rest ih =>
    by_cases hp : p.1 = k
    · subst hp
      have hk : ¬ p.1 = k' := fun h₂ => h h₂.symm
      simp [setA, lookupA, List.find?, hk]
    · by_cases hk : p.1 = k'
      · simp [setA, hp, lookupA, List.find?, hk, h]
      · simpa [setA, hp, lookupA, List.find?, hk] using ih

theorem find?_append_left {α : Type} (l₁ l₂ : List α) (p : α → Bool) (v : α)
    (h : l₁.find? p = some v) : (l₁ ++ l₂).find? p = some v := by
  induction l₁ with
  | nil => simp [List.find?] at h
  | cons a rest ih =>
    cases ha : p a with
    | true =>
      simp only [List.find?, ha] at h
      simpa [List.cons_append, List.find?, ha] using h
    | false =>
      simp only [List.find?, ha] at h
      simp only [List.cons_append, List.find?, ha]
      exact ih h

/-! ### Example states for concrete evaluations -/

/-- The empty process state. -/
def baseState : GlobalState :=
  { globalSessionNames := [], globalChatHistory := [],
    sessionMessageCounts := [], sessionCacheTimestamp := [],
    foreignLastSessionIds := [], sessionCounters := [],
    currentUserId := none, thinkingContentBuffer := [],
    globalModelList := [], modelListCacheTimestamp := none,
    globalPersonalizedFiles := [], tokenBuffers := [],
    globalActiveConsumer := none, globalStreamingSessions := [] }

/-- State for the C8 counterexample: a live socket-layer buffer, consumer
and streaming-session entry at logout time. -/
def C8state : GlobalState :=
  { baseState with
    tokenBuffers := [("atul_19", freshTokenBuffer "7")],
    globalStreamingSessions :=
      [("atul_19",
        { modelId := "7", chatId := "1", instanceId := none,
          sessionId := "19", userId := "atul",
          consumerTag := "socket_abc123_19_1_1700000000000" })],
    globalActiveConsumer := some "socket_abc123_19_1_1700000000000" }

/-- A local catalog session as `/chat` creates it. -/
def c4Session (i : String) : CatSession :=
  { session_id := i, title := "Chat Session " ++ i, user_id := "atul",
    source := some "local" }

/-- State for C4: user `atul` already holds exactly 10 sessions, ids
`"5"`..`"14"`, with the upstream cursor at 14. -/
def C4state : GlobalState :=
  { baseState with
    globalSessionNames :=
      [c4Session "5", c4Session "6", c4Session "7", c4Session "8",
       c4Session "9", c4Session "10", c4Session "11", c4Session "12",
       c4Session "13", c4Session "14"],
    foreignLastSessionIds := [("atul", "14")] }

/-- State for C2: one live consumer whose tag has the documented shape
`socket_{conn}_{sessionId}_{chatId}_{epoch}` for session 19, chat 1. -/
def C2state : GlobalState :=
  { baseState with
    globalActiveConsumer := some "socket_abc123_19_1_1700000000000" }

/-- State for C1/C3: the C2 consumer plus a transcript for
`(atul, 19)` whose chat-1 user and assistant messages are incomplete. -/
def C3state : GlobalState :=
  { baseState with
    globalActiveConsumer := some "socket_abc123_19_1_1700000000000",
    globalChatHistory :=
      [("atul_19",
        [{ role := "user", content := "hi", chat_id := some "1",
           session_id := some "19", user_id := some "atul",
           message_type := some "user_prompt", isComplete := some false },
         { role := "assistant", content := "partial", chat_id := some "1",
           session_id := some "19", user_id := some "atul",
           message_type := some "streaming_tokens", isComplete := some false,
           token_count := some 2 }])] }

/-! ### Claim theorems -/

/-- C9 (counterexample): with the recorded chat count for `(u, 1)` at
exactly 15 — which does not *exceed* 15 — the `/chat` admission already
rejects with the limit error (HTTP 429) and leaves the counts unmutated,
so "rejected if and only if the count exceeds 15" is false. -/
theorem C9_counterexample :
    (chatAdmission (some "u") (some "1") (some "hi") [("u_1", 15)]).httpStatus
        = 429 ∧
    (chatAdmission (some "u") (some "1") (some "hi") [("u_1", 15)]).proceeds
        = false ∧
    (chatAdmission (some "u") (some "1") (some "hi") [("u_1", 15)]).counts
        = [("u_1", 15)] ∧
    ¬ (15 > 15) := by decide

/-- C9 (amended): for a validated request, the `/chat` endpoint rejects
with the limit error — performing no mutation — exactly when the recorded
chat count for `(userId, sessionId)` is at least 15; otherwise the prompt
is admitted and the count is incremented. -/
theorem C9_amended_admission (u s p : String) (counts : List (String × Nat))
    (hu : ¬ u = "") (hs : ¬ s = "") (hp : ¬ p = "") :
    ((chatAdmission (some u) (some s) (some p) counts).proceeds = false
        ↔ 15 ≤ (lookupA counts (u ++ "_" ++ s)).getD 0) ∧
    (15 ≤ (lookupA counts (u ++ "_" ++ s)).getD 0 →
      chatAdmission (some u) (some s) (some p) counts =
        { httpStatus := 429, proceeds := false, counts := counts }) ∧
    ((lookupA counts (u ++ "_" ++ s)).getD 0 < 15 →
      chatAdmission (some u) (some s) (some p) counts =
        { httpStatus := 200, proceeds := true,
          counts := setA counts (u ++ "_" ++ s)
            ((lookupA counts (u ++ "_" ++ s)).getD 0 + 1) }) := by
  have hv : ¬ (u = "" ∨ s = "" ∨ p = "") := by simp [hu, hs, hp]
  by_cases hc : 15 ≤ (lookupA counts (u ++ "_" ++ s)).getD 0
  · refine ⟨?_, ?_, ?_⟩ <;> simp [chatAdmission, hv, hc]
  · refine ⟨?_, ?_, ?_⟩ <;> simp [chatAdmission, hv, hc]

/-- Witness for C9: a fresh session admits the prompt and records count 1. -/
theorem C9_witness :
    (¬ ("u" : String) = "") ∧
    chatAdmission (some "u") (some "1") (some "hi") [] =
      { httpStatus := 200, proceeds := true, counts := [("u_1", 1)] } := by
  refine ⟨by decide, ?_⟩
  have h :=
    (C9_amended_admission "u" "1" "hi" [] (by decide) (by decide)
      (by decide)).2.2 (by decide)
  exact h

/-- C8 (amended): the logout flush empties every chat-module global — the
session catalog, transcripts, message counts, cache stamps, upstream
cursors, counters, current-user slot, thinking buffer, model cache and
personalized-file lists — but leaves the socket-layer token buffers,
active consumer and streaming-session table untouched. -/
theorem C8_amended_flush (st : GlobalState) :
    (flushAllGlobalVariables st).globalSessionNames = [] ∧
    (flushAllGlobalVariables st).globalChatHistory = [] ∧
    (flushAllGlobalVariables st).sessionMessageCounts = [] ∧
    (flushAllGlobalVariables st).sessionCacheTimestamp = [] ∧
    (flushAllGlobalVariables st).foreignLastSessionIds = [] ∧
    (flushAllGlobalVariables st).sessionCounters = [] ∧
    (flushAllGlobalVariables st).currentUserId = none ∧
    (flushAllGlobalVariables st).thinkingContentBuffer = [] ∧
    (flushAllGlobalVariables st).globalModelList = [] ∧
    (flushAllGlobalVariables st).modelListCacheTimestamp = none ∧
    (flushAllGlobalVariables st).globalPersonalizedFiles = [] ∧
    (flushAllGlobalVariables st).tokenBuffers = st.tokenBuffers ∧
    (flushAllGlobalVariables st).globalActiveConsumer
        = st.globalActiveConsumer ∧
    (flushAllGlobalVariables st).globalStreamingSessions
        = st.globalStreamingSessions :=
  ⟨rfl, rfl, rfl, rfl, rfl, rfl, rfl, rfl, rfl, rfl, rfl, rfl, rfl, rfl⟩

/-- C8 (counterexample): after the logout flush of a state with a live
socket-layer buffer and consumer, the token buffer, the streaming-session
table and the active-consumer slot all still hold residual state, so
"every ... parser buffer ... active-stream table ... is empty/cleared" is
false. -/
theorem C8_counterexample :
    ¬ (flushAllGlobalVariables C8state).tokenBuffers = [] ∧
    ¬ (flushAllGlobalVariables C8state).globalStreamingSessions = [] ∧
    ¬ (flushAllGlobalVariables C8state).globalActiveConsumer = none := by
  decide

/-- C4 (code bug): a user holding exactly 10 sessions creates another via
`/chatsession`; the window check neither warns nor evicts (it only warns
at exactly 9 and evicts at ≥ 25), the new session `"15"` is inserted, and
the catalog grows to 11 sessions — violating the 10-session bound the
code's own messages and the specification state. -/
theorem C4_window_not_enforced_at_ten :
    ((chatsessionCreate "atul" none C4state).2.globalSessionNames.filter
        (fun s => s.user_id = "atul")).length = 11 ∧
    (chatsessionCreate "atul" none C4state).1.1 = "15" ∧
    (chatsessionCreate "atul" none C4state).1.2.deletedSession = none ∧
    (chatsessionCreate "atul" none C4state).1.2.shouldNotifyUser = false := by
  decide

/-- C2 (code bug): a live chat consumer carries the documented tag
`socket_abc123_19_1_1700000000000` (connection `abc123`, session 19, chat
1); yet `forceCleanupConsumerForSession("atul","19","1")` cancels nothing
and changes nothing, because the substring it searches for —
`"atul_19"` — embeds the user id, which the tag does not contain. -/
theorem C2_matcher_misses_documented_tag :
    forceCleanupConsumerForSession "atul" "19" (some "1") C2state
        = (false, C2state) ∧
    C2state.globalActiveConsumer = some "socket_abc123_19_1_1700000000000" ∧
    jsIncludes "socket_abc123_19_1_1700000000000" "atul_19" = false := by
  decide

/-- C3 (code bug): a stop for `(atul, 19, chat 1)` that upstream even
acknowledges leaves the transcript untouched — both incomplete chat-1
messages survive — because the transcript scrub is only reached through
the consumer-tag matcher, which never matches (see C2). -/
theorem C3_incomplete_survives_stop :
    (stopEndpoint "atul" (some "19") (some "1") none UpstreamStopOutcome.ok
        C3state).1.globalChatHistory = C3state.globalChatHistory ∧
    (((lookupA (stopEndpoint "atul" (some "19") (some "1") none
          UpstreamStopOutcome.ok C3state).1.globalChatHistory
        "atul_19").getD []).filter
      (fun m => m.chat_id = some "1" ∧ ¬ m.isComplete = some true)).length
        = 2 := by decide

/-- C1 (counterexample): when upstream replies to `/stop` with a non-ok
HTTP status (500) — the upstream call *erroring* — the endpoint performs
no local cleanup at all (state unchanged, consumer still live, no
`complete` emitted) and returns a failure without `cleanup_completed`,
contradicting the claim that an erroring upstream call still yields local
cleanup and a success with `cleanup_completed = true`. -/
theorem C1_counterexample :
    stopEndpoint "atul" (some "19") (some "1") none
        (UpstreamStopOutcome.httpError 500) C3state =
      (C3state, [],
        { httpStatus := 500, success := false, cleanup_completed := none }) ∧
    ¬ C3state.globalActiveConsumer = none := by decide

/-- C1 (amended): when the upstream `/stop` call throws (network error or
the 100 s abort) and the request carries a session id, the endpoint still
runs the local cleanup path — it invokes the session-targeted consumer
cleanup, emits `complete{timeout_stopped}` followed by the
`cleanup-generation` hint to the chat's room, and answers success with
`cleanup_completed = true`; moreover, whenever the live consumer's tag
does contain the `userId_sessionId` pattern and a chat id was given, the
consumer slot is freed and no incomplete message of that chat survives in
the transcript.  (When upstream replies with a non-ok HTTP status the
endpoint instead returns a 500 failure with no cleanup — see the
counterexample.) -/
theorem C1_amended_stop_cleanup (userId sessionId : String)
    (chatId instanceId : Option String) (st : GlobalState) :
    stopEndpoint userId (some sessionId) chatId instanceId
        UpstreamStopOutcome.netError st =
      ((forceCleanupConsumerForSession userId sessionId chatId st).2,
       [ChatEvent.complete (stopRoomId userId sessionId chatId instanceId)
          (some "timeout_stopped") 0,
        ChatEvent.cleanupGeneration
          (stopRoomId userId sessionId chatId instanceId) "stop_timeout"],
       { httpStatus := 200, success := true,
         cleanup_completed := some true }) ∧
    (∀ tag c, st.globalActiveConsumer = some tag →
      jsIncludes tag (userId ++ "_" ++ sessionId) = true →
      chatId = some c →
      (stopEndpoint userId (some sessionId) chatId instanceId
          UpstreamStopOutcome.netError st).1.globalActiveConsumer = none ∧
      ∀ m ∈ (lookupA (stopEndpoint userId (some sessionId) chatId instanceId
            UpstreamStopOutcome.netError st).1.globalChatHistory
          (userId ++ "_" ++ sessionId)).getD [],
        ¬ (m.chat_id = some c ∧ ¬ m.isComplete = some true)) := by
  constructor
  · rfl
  · intro tag c htag hinc hcid
    subst hcid
    simp only [stopEndpoint, forceCleanupConsumerForSession, htag, hinc,
      Bool.true_or, if_true]
    cases hl : lookupA st.globalChatHistory (userId ++ "_" ++ sessionId) with
    | none =>
      constructor
      · trivial
      · simp [removeIncompleteChatFromHistory, hl]
    | some msgs =>
      constructor
      · trivial
      · intro m hm
        simp only [removeIncompleteChatFromHistory, hl,
          lookupA_setA_self, Option.getD_some] at hm
        have h₂ := (List.mem_filter.mp hm).2
        exact of_decide_eq_true h₂

/-- Witness for C1: with the session-19 consumer tagged
`socket_atul_19_1_1700000000000` (a tag that does contain `atul_19`) and
an incomplete chat-1 transcript, a stop whose upstream call times out
frees the consumer and leaves no incomplete chat-1 message. -/
theorem C1_witness :
    ({ C3state with
        globalActiveConsumer := some "socket_atul_19_1_1700000000000"
      } : GlobalState).globalActiveConsumer
        = some "socket_atul_19_1_1700000000000" ∧
    jsIncludes "socket_atul_19_1_1700000000000" ("atul" ++ "_" ++ "19")
        = true ∧
    (stopEndpoint "atul" (some "19") (some "1") none
        UpstreamStopOutcome.netError
        { C3state with
          globalActiveConsumer := some "socket_atul_19_1_1700000000000"
        }).1.globalActiveConsumer = none := by
  refine ⟨rfl, by decide, ?_⟩
  exact ((C1_amended_stop_cleanup "atul" "19" (some "1") none
      { C3state with
        globalActiveConsumer := some "socket_atul_19_1_1700000000000" }).2
    "socket_atul_19_1_1700000000000" "1" rfl (by decide) rfl).1

/-- Consumer context for the C5 example: consumer for chat `"2"`. -/
def C5ctx : ConsumerCtx :=
  { userId := "u", sessionId := "9", chatId := "2", instanceId := none,
    roomId := "r", prompt := "hello" }

/-- C5 (counterexample): a Bus message carrying *no* `chat_id` field is
fully processed by a consumer for chat `"2"` — it is recorded in the
transcript and streamed to the room — although its chat id does not equal
the consumer's; and a message carrying the falsy `chat_id` `""` (which
also differs from `"2"`) bypasses the truthiness-guarded filter and is
likewise fully processed.  So "considered for processing only if its
chatId equals the consumer's chatId" is false. -/
theorem C5_counterexample :
    ({ content := some "hi" } : BusMessage).chat_id = none ∧
    ¬ (handlerStep C5ctx baseState ⟨0, false⟩ { content := some "hi" }
        0).1.globalChatHistory = baseState.globalChatHistory ∧
    (handlerStep C5ctx baseState ⟨0, false⟩ { content := some "hi" } 0).2.2
        = [ChatEvent.stream "r" "hi" false none] ∧
    ¬ ("" : String) = C5ctx.chatId ∧
    ¬ (handlerStep C5ctx baseState ⟨0, false⟩
        { content := some "hi", chat_id := some "" }
        0).1.globalChatHistory = baseState.globalChatHistory ∧
    (handlerStep C5ctx baseState ⟨0, false⟩
        { content := some "hi", chat_id := some "" } 0).2.2
        = [ChatEvent.stream "r" "hi" false none] := by decide

/-- C5 (amended): every Bus message that carries a *truthy* (non-empty)
`chat_id` different from the consumer's is silently ignored — the process
state is untouched and nothing is emitted — so tokens and completions
published for chat `a` (which carry the non-empty `chat_id = a` on the
wire) are never delivered or recorded under a consumer for chat `b ≠ a`;
messages whose `chat_id` is absent, or falsy such as `""`, bypass the
filter. -/
theorem C5_amended_chat_filter (ctx : ConsumerCtx) (st : GlobalState)
    (loc : HandlerLocal) (msg : BusMessage) (now : Nat) (c : String)
    (hc : msg.chat_id = some c) (hct : ¬ c = "")
    (hne : ¬ c = ctx.chatId) :
    (handlerStep ctx st loc msg now).1 = st ∧
    (handlerStep ctx st loc msg now).2.2 = [] := by
  by_cases hsc : loc.isStreamingComplete = true
  · simp [handlerStep, hsc]
  · simp only [Bool.not_eq_true] at hsc
    simp [handlerStep, hsc, chatMismatch, hc, hct, hne]

/-- Witness for C5: a chat-1 token at the chat-2 consumer changes nothing
and emits nothing. -/
theorem C5_witness :
    ({ mtype := some "token", data := some "x", chat_id := some "1" }
        : BusMessage).chat_id = some "1" ∧
    (handlerStep C5ctx baseState ⟨0, false⟩
        { mtype := some "token", data := some "x", chat_id := some "1" }
        0).1 = baseState ∧
    (handlerStep C5ctx baseState ⟨0, false⟩
        { mtype := some "token", data := some "x", chat_id := some "1" }
        0).2.2 = [] := by
  refine ⟨rfl, ?_, ?_⟩
  · exact (C5_amended_chat_filter C5ctx baseState ⟨0, false⟩
      { mtype := some "token", data := some "x", chat_id := some "1" } 0 "1"
      rfl (by decide) (by decide)).1
  · exact (C5_amended_chat_filter C5ctx baseState ⟨0, false⟩
      { mtype := some "token", data := some "x", chat_id := some "1" } 0 "1"
      rfl (by decide) (by decide)).2

/-! ### No stream emission ever carries blank content -/

/-- Every `stream` event of the list has content with a non-empty trim. -/
def streamsTrimmed (evs : List ChatEvent) : Prop :=
  ∀ e ∈ evs, ∀ room c pend mid,
    e = ChatEvent.stream room c pend mid → ¬ jsTrim c = ""

theorem streamsTrimmed_nil : streamsTrimmed [] := by
  intro e he
  simp at he

theorem streamsTrimmed_single_stream (room c : String) (pend : Bool)
    (mid : Option String) (h : ¬ jsTrim c = "") :
    streamsTrimmed [ChatEvent.stream room c pend mid] := by
  intro e he r c' p m heq
  simp only [List.mem_singleton] at he
  subst he
  cases heq
  exact h

theorem streamsTrimmed_move_tc (room content : String) (mid : Option String)
    (pend : List String) (room₂ : String) :
    streamsTrimmed [ChatEvent.moveToThinking room content mid pend,
      ChatEvent.thinkingComplete room₂] := by
  intro e he r c p m heq
  simp only [List.mem_cons, List.mem_singleton] at he
  rcases he with rfl | rfl | he
  · simp at heq
  · simp at heq
  · simp at he

theorem streamsTrimmed_append {l₁ l₂ : List ChatEvent}
    (h₁ : streamsTrimmed l₁) (h₂ : streamsTrimmed l₂) :
    streamsTrimmed (l₁ ++ l₂) := by
  intro e he r c p m heq
  rcases List.mem_append.mp he with h | h
  · exact h₁ e h r c p m heq
  · exact h₂ e h r c p m heq

/-- `processAfterThinkingEnd` only selects a return value; it never adds
events. -/
theorem processAfterThinkingEnd_events (rt : TagPair) (gpt : Bool)
    (afterThinking : String) (evs : List ChatEvent)
    (hist : List (String × List Message)) (b₃ : TokenBuffer) :
    (processAfterThinkingEnd rt gpt afterThinking evs hist b₃).events
      = evs := by
  unfold processAfterThinkingEnd
  split
  · split <;> rfl
  · split <;> rfl

/-- The events of the thinking-end handler: the optimistic emission
followed, when the interior is non-blank, by the move and
`thinking_complete`. -/
theorem finishThinkingEnd_events (rt : TagPair) (gpt : Bool) (endIndex : Int)
    (skip sessionKey roomId chatId sessionId : String)
    (evs₁ : List ChatEvent) (hist : List (String × List Message))
    (b₂ : TokenBuffer) :
    (finishThinkingEnd rt gpt endIndex skip sessionKey roomId chatId
        sessionId evs₁ hist b₂).events =
      evs₁ ++
        (if ¬ jsTrim (jsSubstring b₂.thinkingContent 0 endIndex) = "" then
          [ChatEvent.moveToThinking roomId
             (jsTrim (jsSubstring b₂.thinkingContent 0 endIndex))
             b₂.thinkingMessageId b₂.pendingThinkingTokens,
           ChatEvent.thinkingComplete roomId]
         else []) := by
  unfold finishThinkingEnd
  split
  · rw [processAfterThinkingEnd_events]
  · rw [processAfterThinkingEnd_events]
    simp

theorem pendingEmit_streams_trimmed (tt : TagPair) (token roomId : String)
    (b : TokenBuffer) : streamsTrimmed (pendingEmit tt token roomId b) := by
  unfold pendingEmit
  split
  · next h =>
    simp only [thinkPush, decide_eq_true_eq] at h
    exact streamsTrimmed_single_stream _ _ _ _ h.1
  · exact streamsTrimmed_nil

theorem processThinkingStart_streams_trimmed (tt : TagPair)
    (sessionKey roomId : String) (now : Nat)
    (hist : List (String × List Message)) (b : TokenBuffer) :
    streamsTrimmed
      (processThinkingStart tt sessionKey roomId now hist b).events := by
  unfold processThinkingStart
  split
  · exact streamsTrimmed_nil
  · dsimp only
    split
    · exact streamsTrimmed_single_stream _ _ _ _ (by assumption)
    · exact streamsTrimmed_nil

theorem processTokenInThinking_streams_trimmed (tt rt : TagPair)
    (token sessionKey roomId chatId sessionId : String)
    (hist : List (String × List Message)) (b : TokenBuffer) :
    streamsTrimmed
      (processTokenInThinking tt rt token sessionKey roomId chatId sessionId
        hist b).events := by
  unfold processTokenInThinking
  split
  · rw [finishThinkingEnd_events]
    refine streamsTrimmed_append (pendingEmit_streams_trimmed _ _ _ _) ?_
    split
    · exact streamsTrimmed_move_tc _ _ _ _ _
    · exact streamsTrimmed_nil
  · split
    · rw [finishThinkingEnd_events]
      refine streamsTrimmed_append (pendingEmit_streams_trimmed _ _ _ _) ?_
      split
      · exact streamsTrimmed_move_tc _ _ _ _ _
      · exact streamsTrimmed_nil
    · exact pendingEmit_streams_trimmed _ _ _ _

theorem processResponsePhase_streams_trimmed (rt : TagPair)
    (token roomId : String) (hist : List (String × List Message))
    (b : TokenBuffer) :
    streamsTrimmed (processResponsePhase rt token roomId hist b).events := by
  unfold processResponsePhase
  split
  · dsimp only
    split
    · exact streamsTrimmed_single_stream _ _ _ _ (by assumption)
    · exact streamsTrimmed_nil
  · split
    · exact streamsTrimmed_nil
    · split
      · exact streamsTrimmed_nil
      · exact streamsTrimmed_nil

/-- Every emission site inside the thinking processor is guarded by a
non-blank trim check. -/
theorem processTokenCore_streams_trimmed (cfg : ModelConfig)
    (token skey room cid sid : String) (now : Nat)
    (hist : List (String × List Message)) (b : TokenBuffer) :
    streamsTrimmed
      (processTokenCore cfg token skey room cid sid now hist b).events := by
  unfold processTokenCore
  split
  · exact processThinkingStart_streams_trimmed _ _ _ _ _ _
  · split
    · exact processTokenInThinking_streams_trimmed _ _ _ _ _ _ _ _ _
    · exact processResponsePhase_streams_trimmed _ _ _ _ _

theorem processTokenStreamThinking_streams_trimmed
    (token sessionKey modelId roomId chatId sessionId : String) (now : Nat)
    (hist : List (String × List Message))
    (buffers : List (String × TokenBuffer)) :
    streamsTrimmed (processTokenStreamThinking token sessionKey modelId
      roomId chatId sessionId now hist buffers).1.events := by
  unfold processTokenStreamThinking
  split
  · exact streamsTrimmed_nil
  · split
    · exact streamsTrimmed_nil
    · split
      · exact streamsTrimmed_nil
      · exact processTokenCore_streams_trimmed _ _ _ _ _ _ _ _ _

theorem callerEmit_streams_trimmed (roomId ret : String) :
    streamsTrimmed (callerEmit roomId ret) := by
  unfold callerEmit
  split
  · exact streamsTrimmed_single_stream _ _ _ _ (by assumption)
  · exact streamsTrimmed_nil

theorem handlerContent_streams_trimmed (ctx : ConsumerCtx) (st : GlobalState)
    (messageCount : Nat) (msg : BusMessage) (now : Nat) :
    streamsTrimmed (handlerContent ctx st messageCount msg now).2 := by
  refine streamsTrimmed_append ?_ (callerEmit_streams_trimmed _ _)
  exact processTokenStreamThinking_streams_trimmed _ _ _ _ _ _ _ _ _

/-- No step of the consumer callback ever emits a `stream` event whose
content trims to the empty string. -/
theorem handlerStep_streams_trimmed (ctx : ConsumerCtx) (st : GlobalState)
    (loc : HandlerLocal) (msg : BusMessage) (now : Nat) :
    streamsTrimmed (handlerStep ctx st loc msg now).2.2 := by
  unfold handlerStep
  split
  · exact streamsTrimmed_nil
  · split
    · exact streamsTrimmed_nil
    · split
      · intro e he r c p m heq
        simp only [List.mem_singleton] at he
        subst he
        simp at heq
      · split
        · exact streamsTrimmed_nil
        · exact handlerContent_streams_trimmed _ _ _ _ _

theorem concatContents_append (l₁ l₂ : List Message) :
    concatContents (l₁ ++ l₂) = concatContents l₁ ++ concatContents l₂ := by
  simp [concatContents]

/-- The retroactive-move persistence never changes any message `content`:
the chat's concatenated content is untouched. -/
theorem persistThinkingContent_concat (t skey cid sid : String)
    (hist : List (String × List Message)) :
    concatContents
      ((lookupA (persistThinkingContent t skey cid sid hist) skey).getD [])
      = concatContents ((lookupA hist skey).getD []) := by
  unfold persistThinkingContent
  split
  · next lastMessage hlast =>
    split
    · rw [lookupA_setA_self]
      obtain ⟨m, hm⟩ := List.getLast?_eq_some_iff.mp hlast
      rw [hm, List.dropLast_concat]
      simp [concatContents_append, concatContents]
    · rw [lookupA_setA_self]
      simp [concatContents_append, concatContents, newThinkingMessage]
  · rw [lookupA_setA_self]
    simp [concatContents_append, concatContents, newThinkingMessage]

theorem processAfterThinkingEnd_hist (rt : TagPair) (gpt : Bool)
    (afterThinking : String) (evs : List ChatEvent)
    (hist : List (String × List Message)) (b₃ : TokenBuffer) :
    (processAfterThinkingEnd rt gpt afterThinking evs hist b₃).hist = hist := by
  unfold processAfterThinkingEnd
  split
  · split <;> rfl
  · split <;> rfl

theorem finishThinkingEnd_concat (rt : TagPair) (gpt : Bool) (endIndex : Int)
    (skip sessionKey roomId chatId sessionId : String)
    (evs₁ : List ChatEvent) (hist : List (String × List Message))
    (b₂ : TokenBuffer) :
    concatContents
      ((lookupA (finishThinkingEnd rt gpt endIndex skip sessionKey roomId
          chatId sessionId evs₁ hist b₂).hist sessionKey).getD [])
      = concatContents ((lookupA hist sessionKey).getD []) := by
  unfold finishThinkingEnd
  split
  · rw [processAfterThinkingEnd_hist]
    exact persistThinkingContent_concat _ _ _ _ _
  · rw [processAfterThinkingEnd_hist]

theorem processThinkingStart_hist (tt : TagPair) (sessionKey roomId : String)
    (now : Nat) (hist : List (String × List Message)) (b : TokenBuffer) :
    (processThinkingStart tt sessionKey roomId now hist b).hist = hist := by
  unfold processThinkingStart
  split <;> rfl

theorem processTokenInThinking_concat (tt rt : TagPair)
    (token sessionKey roomId chatId sessionId : String)
    (hist : List (String × List Message)) (b : TokenBuffer) :
    concatContents
      ((lookupA (processTokenInThinking tt rt token sessionKey roomId chatId
          sessionId hist b).hist sessionKey).getD [])
      = concatContents ((lookupA hist sessionKey).getD []) := by
  unfold processTokenInThinking
  split
  · exact finishThinkingEnd_concat _ _ _ _ _ _ _ _ _ _ _
  · split
    · exact finishThinkingEnd_concat _ _ _ _ _ _ _ _ _ _ _
    · rfl

theorem processResponsePhase_hist (rt : TagPair) (token roomId : String)
    (hist : List (String × List Message)) (b : TokenBuffer) :
    (processResponsePhase rt token roomId hist b).hist = hist := by
  unfold processResponsePhase
  split
  · rfl
  · split
    · rfl
    · split <;> rfl

/-- One thinking-processor step never changes the chat's concatenated
transcript content (the move only fills `thinkingContent` fields or adds
an empty-content message). -/
theorem processTokenCore_concat (cfg : ModelConfig)
    (token sessionKey roomId chatId sessionId : String) (now : Nat)
    (hist : List (String × List Message)) (b : TokenBuffer) :
    concatContents
      ((lookupA (processTokenCore cfg token sessionKey roomId chatId
          sessionId now hist b).hist sessionKey).getD [])
      = concatContents ((lookupA hist sessionKey).getD []) := by
  unfold processTokenCore
  split
  · rw [processThinkingStart_hist]
  · split
    · exact processTokenInThinking_concat _ _ _ _ _ _ _ _ _
    · rw [processResponsePhase_hist]

theorem processTokenStreamThinking_concat
    (token sessionKey modelId roomId chatId sessionId : String) (now : Nat)
    (hist : List (String × List Message))
    (buffers : List (String × TokenBuffer)) :
    concatContents
      ((lookupA (processTokenStreamThinking token sessionKey modelId roomId
          chatId sessionId now hist buffers).1.hist sessionKey).getD [])
      = concatContents ((lookupA hist sessionKey).getD []) := by
  unfold processTokenStreamThinking
  split
  · rfl
  · split
    · rfl
    · split
      · rfl
      · exact processTokenCore_concat _ _ _ _ _ _ _ _ _

/-- The streaming transcript append extends the chat's concatenated
content by exactly the delivered content. -/
theorem appendStreamMsgs_concat (ctx : ConsumerCtx) (rc : String)
    (isTok : Bool) (msgs : List Message) :
    concatContents (appendStreamMsgs ctx rc isTok msgs)
      = concatContents msgs ++ rc.data := by
  unfold appendStreamMsgs
  split
  · next lastMessage hlast =>
    split
    · obtain ⟨m, hm⟩ := List.getLast?_eq_some_iff.mp hlast
      rw [hm, List.dropLast_concat]
      simp [concatContents_append, concatContents, String.data_append]
    · simp [concatContents_append, concatContents, newStreamMessage]
  · simp [concatContents_append, concatContents, newStreamMessage]

/-- Consumer context for the C10 example: consumer for chat `"1"`. -/
def C10ctx : ConsumerCtx :=
  { userId := "u", sessionId := "9", chatId := "1", instanceId := none,
    roomId := "r", prompt := "hello" }

/-- C10 (counterexample): a Bus token message whose `data` is the *empty*
string does produce a `stream` emission — extraction falls through every
content field (empty strings are falsy) to the `JSON.stringify` fallback,
whose serialization is both appended to the transcript and streamed to
the room; so "emits no stream event ... even though the token's content
is still appended" is false for empty tokens. -/
theorem C10_counterexample :
    ({ mtype := some "token", data := some "", chat_id := some "1" }
        : BusMessage).data = some "" ∧
    (handlerStep C10ctx baseState ⟨0, false⟩
        { mtype := some "token", data := some "", chat_id := some "1" }
        0).2.2
      = [ChatEvent.stream "r"
          "\x7b\"type\":\"token\",\"data\":\"\",\"chat_id\":\"1\"\x7d"
          false none] := by decide

/-- C10 (amended): (1) the socket streaming path never emits a `stream`
event whose content trims to the empty string — every emission site, in
the thinking phase and in normal streaming, is guarded by a non-empty
trimmed-content check — so in particular a whitespace-only Bus token is
never streamed; and (2) a token message carrying non-empty data that the
consumer accepts still has its content appended to the chat's transcript
(the concatenated message content grows by exactly that data), so for
whitespace-only data the delivered stream and the stored content differ
by that whitespace.  (A token with *empty* data instead falls through to
the `JSON.stringify` fallback — see the counterexample.) -/
theorem C10_amended_whitespace_suppression :
    (∀ (ctx : ConsumerCtx) (st : GlobalState) (loc : HandlerLocal)
        (msg : BusMessage) (now : Nat),
      streamsTrimmed (handlerStep ctx st loc msg now).2.2) ∧
    (∀ (ctx : ConsumerCtx) (st : GlobalState) (loc : HandlerLocal)
        (msg : BusMessage) (now : Nat) (d : String),
      loc.isStreamingComplete = false →
      msg.mtype = some "token" → msg.data = some d → ¬ d = "" →
      jsTrim d = "" →
      chatMismatch ctx msg = false →
      concatContents
          ((lookupA (handlerStep ctx st loc msg now).1.globalChatHistory
            (historyKeyOf ctx)).getD [])
        = concatContents
            ((lookupA st.globalChatHistory (historyKeyOf ctx)).getD [])
            ++ d.data) := by
  constructor
  · exact handlerStep_streams_trimmed
  · intro ctx st loc msg now d hsc hm hd hne htrim hmm
    have hext : extractResponseContent msg = d := by
      simp [extractResponseContent, truthyS, hm, hd, hne]
    have hcomp : isCompletionMessage msg = false := by
      simp [isCompletionMessage, hm]
    have hne₂ : ¬ extractResponseContent msg = "" := by
      rw [hext]; exact hne
    simp only [handlerStep, hsc, hmm, hcomp, hne₂, Bool.false_eq_true,
      if_false, if_neg hne₂]
    have h₁ :
        concatContents
          ((lookupA (handlerContent ctx st (loc.messageCount + 1) msg
              now).1.globalChatHistory (historyKeyOf ctx)).getD [])
          = concatContents
              ((lookupA (handlerPreState ctx st (loc.messageCount + 1)
                msg).globalChatHistory (historyKeyOf ctx)).getD []) :=
      processTokenStreamThinking_concat _ _ _ _ _ _ _ _ _
    rw [h₁]
    have h₂ :
        (handlerPreState ctx st (loc.messageCount + 1) msg).globalChatHistory
          = setA st.globalChatHistory (historyKeyOf ctx)
              (appendStreamMsgs ctx (extractResponseContent msg)
                (msg.mtype = some "token")
                ((lookupA st.globalChatHistory (historyKeyOf ctx)).getD []))
          := rfl
    rw [h₂, lookupA_setA_self]
    simpa [hext] using
      appendStreamMsgs_concat ctx (extractResponseContent msg)
        (msg.mtype = some "token")
        ((lookupA st.globalChatHistory (historyKeyOf ctx)).getD [])

/-- Witness for C10: the whitespace token `" "` at the chat-1 consumer
is appended to the stored assistant content while nothing blank is
streamed. -/
theorem C10_witness :
    jsTrim " " = "" ∧
    concatContents
        ((lookupA (handlerStep C10ctx baseState ⟨0, false⟩
            { mtype := some "token", data := some " ", chat_id := some "1" }
            0).1.globalChatHistory (historyKeyOf C10ctx)).getD [])
      = concatContents
          ((lookupA baseState.globalChatHistory (historyKeyOf C10ctx)).getD [])
          ++ (" " : String).data := by
  refine ⟨by decide, ?_⟩
  exact C10_amended_whitespace_suppression.2 C10ctx baseState ⟨0, false⟩
    { mtype := some "token", data := some " ", chat_id := some "1" } 0 " "
    rfl rfl rfl (by decide) (by decide) rfl

/-! ### Deduplication-map lemmas for the title-precedence claim -/

theorem mem_setA {α : Type} {m : List (String × α)} {k : String} {v : α}
    {q : String × α} (h : q ∈ setA m k v) : q = (k, v) ∨ q ∈ m := by
  induction m with
  | nil =>
    simp [setA] at h
    exact Or.inl (by simp [h])
  | cons p rest ih =>
    by_cases hp : p.1 = k
    · simp only [setA, hp, if_pos rfl] at h
      rcases List.mem_cons.mp h with rfl | h
      · exact Or.inl rfl
      · exact Or.inr (List.mem_cons_of_mem _ h)
    · simp only [setA, hp, if_neg hp] at h
      rcases List.mem_cons.mp h with rfl | h
      · exact Or.inr (List.mem_cons_self _ _)
      · rcases ih h with h | h
        · exact Or.inl h
        · exact Or.inr (List.mem_cons_of_mem _ h)

theorem lookupA_mem {α : Type} {m : List (String × α)} {k : String} {v : α}
    (h : lookupA m k = some v) : (k, v) ∈ m := by
  induction m with
  | nil => simp [lookupA, List.find?] at h
  | cons p rest ih =>
    by_cases hp : p.1 = k
    · unfold lookupA at h
      rw [List.find?_cons_of_pos _ (by simp [hp])] at h
      simp only [Option.map_some', Option.some.injEq] at h
      subst h
      subst hp
      simp
    · unfold lookupA at h
      rw [List.find?_cons_of_neg _ (by simp [hp])] at h
      exact List.mem_cons_of_mem _ (ih h)

/-- All values of the deduplication map carry their key as session id and
the merging user as owner. -/
def MapInv (u : String) (m : List (String × CatSession)) : Prop :=
  ∀ p ∈ m, p.2.session_id = p.1 ∧ p.2.user_id = u

theorem mapInv_setA {u : String} {m : List (String × CatSession)}
    {k : String} {v : CatSession} (hm : MapInv u m)
    (hv : v.session_id = k ∧ v.user_id = u) : MapInv u (setA m k v) := by
  intro q hq
  rcases mem_setA hq with rfl | hq
  · exact hv
  · exact hm q hq

theorem seedSessionMap_inv (u : String) (existing : List CatSession)
    (hex : ∀ s ∈ existing, s.user_id = u) :
    MapInv u (seedSessionMap existing) := by
  unfold seedSessionMap
  suffices h : ∀ (l : List CatSession) (m : List (String × CatSession)),
      MapInv u m → (∀ s ∈ l, s.user_id = u) →
      MapInv u (l.foldl (fun m s =>
        setA m s.session_id
          { s with originalSource := s.source, originalTitle := some s.title })
        m) by
    exact h existing [] (by intro q hq; simp at hq) hex
  intro l
  induction l with
  | nil => intro m hm _; exact hm
  | cons s rest ih =>
    intro m hm hl
    exact ih _ (mapInv_setA hm ⟨rfl, hl s (List.mem_cons_self _ _)⟩)
      (fun q hq => hl q (List.mem_cons_of_mem _ hq))

theorem upsertRabbit_inv (u : String) {m : List (String × CatSession)}
    (s : RSession) (hm : MapInv u m) :
    MapInv u (upsertRabbitSession u m s) := by
  unfold upsertRabbitSession
  split
  · exact mapInv_setA hm ⟨rfl, rfl⟩
  · next existing hl =>
    have hx := hm _ (lookupA_mem hl)
    exact mapInv_setA hm ⟨hx.1, hx.2⟩

theorem applyPayload_inv (u : String) (payload : List RSession) :
    ∀ m, MapInv u m → MapInv u (applyRabbitPayload u m payload) := by
  induction payload with
  | nil => intro m hm; exact hm
  | cons s rest ih =>
    intro m hm
    exact ih _ (upsertRabbit_inv u s hm)

theorem upsertRabbit_lookup_ne (u : String) (m : List (String × CatSession))
    (s : RSession) (k : String) (h : ¬ k = s.S_id) :
    lookupA (upsertRabbitSession u m s) k = lookupA m k := by
  unfold upsertRabbitSession
  split
  · exact lookupA_setA_ne _ _ _ _ h
  · exact lookupA_setA_ne _ _ _ _ h

theorem upsertRabbit_title (u : String) (m : List (String × CatSession))
    (s : RSession) :
    (lookupA (upsertRabbitSession u m s) s.S_id).map (·.title)
      = some s.title := by
  unfold upsertRabbitSession
  split
  · rw [lookupA_setA_self]; rfl
  · rw [lookupA_setA_self]; rfl

theorem applyPayload_not_mem (u : String) (payload : List RSession) :
    ∀ (m : List (String × CatSession)) (k : String),
      ¬ k ∈ payload.map (·.S_id) →
      lookupA (applyRabbitPayload u m payload) k = lookupA m k := by
  induction payload with
  | nil => intro m k _; rfl
  | cons s rest ih =>
    intro m k h
    have h₁ : ¬ k = s.S_id := by
      intro hk
      exact h (by simp [hk])
    have h₂ : ¬ k ∈ rest.map (·.S_id) := by
      intro hk
      exact h (by simp [hk])
    calc lookupA (applyRabbitPayload u (upsertRabbitSession u m s) rest) k
        = lookupA (upsertRabbitSession u m s) k := ih _ k h₂
      _ = lookupA m k := upsertRabbit_lookup_ne u m s k h₁

/-- The deduplication fold leaves, at any id occurring exactly once in
the payload, exactly that payload entry's title. -/
theorem applyPayload_title (u : String) (payload : List RSession) :
    ∀ (m : List (String × CatSession)) (sid t : String),
      (payload.filter (fun r => r.S_id = sid)).map (·.title) = [t] →
      (lookupA (applyRabbitPayload u m payload) sid).map (·.title)
        = some t := by
  induction payload with
  | nil => intro m sid t h; simp at h
  | cons s rest ih =>
    intro m sid t h
    by_cases hs : s.S_id = sid
    · rw [List.filter_cons_of_pos (by simp [hs])] at h
      simp only [List.map_cons, List.cons_eq_cons] at h
      obtain ⟨ht, hrest⟩ := h
      have hnot : ¬ sid ∈ rest.map (·.S_id) := by
        intro hmem
        obtain ⟨r, hr, hrid⟩ := List.mem_map.mp hmem
        have : r ∈ rest.filter (fun r => r.S_id = sid) :=
          List.mem_filter.mpr ⟨hr, by simp [hrid]⟩
        rw [List.map_eq_nil_iff.mp hrest] at this
        simp at this
      show (lookupA (applyRabbitPayload u (upsertRabbitSession u m s) rest)
          sid).map (·.title) = some t
      rw [applyPayload_not_mem u rest _ sid hnot, ← hs, ← ht]
      exact upsertRabbit_title u m s
    · rw [List.filter_cons_of_neg (by simp [hs])] at h
      exact ih _ sid t h

theorem find_values_of_lookup (u : String) :
    ∀ (m : List (String × CatSession)), MapInv u m →
    ∀ (sid : String) (v : CatSession), lookupA m sid = some v →
      (m.map (·.2)).find?
        (fun s => s.user_id = u ∧ s.session_id = sid) = some v := by
  intro m
  induction m with
  | nil => intro _ sid v h; simp [lookupA, List.find?] at h
  | cons p rest ih =>
    intro hm sid v h
    have hp₀ := hm p (List.mem_cons_self _ _)
    by_cases hp : p.1 = sid
    · unfold lookupA at h
      rw [List.find?_cons_of_pos _ (by simp [hp])] at h
      simp only [Option.map_some', Option.some.injEq] at h
      subst h
      rw [List.map_cons]
      rw [List.find?_cons_of_pos _ (by simp [hp₀.2, hp₀.1, hp])]
    · unfold lookupA at h
      rw [List.find?_cons_of_neg _ (by simp [hp])] at h
      have hpred : ¬ (p.2.user_id = u ∧ p.2.session_id = sid) := by
        intro hc
        exact hp (hp₀.1 ▸ hc.2)
      rw [List.map_cons]
      rw [List.find?_cons_of_neg _ (by simpa using hpred)]
      exact ih (fun q hq => hm q (List.mem_cons_of_mem _ hq)) sid v h

/-- **C7.** After a `/sessionName` re-sync that delivers an Upstream
payload, for every session id present exactly once in that payload, the
catalog entry for that (user, session id) carries the Upstream-provided
title: the RabbitMQ title always overwrites any local title for the same
session id. -/
theorem C7_upstream_title_precedence (st : GlobalState) (user_id : String)
    (payload : List RSession) (sid t : String)
    (h : (payload.filter (fun r => r.S_id = sid)).map (·.title) = [t]) :
    (catalogFind (sessionNameSync user_id payload st).2 user_id sid).map
      (·.title) = some t := by
  have hex : ∀ s ∈ st.globalSessionNames.filter
      (fun s => s.user_id = user_id), s.user_id = user_id := by
    intro s hs
    have := (List.mem_filter.mp hs).2
    simpa using this
  have inv : MapInv user_id
      (applyRabbitPayload user_id
        (seedSessionMap
          (st.globalSessionNames.filter (fun s => s.user_id = user_id)))
        payload) :=
    applyPayload_inv user_id payload _
      (seedSessionMap_inv user_id _ hex)
  have hl := applyPayload_title user_id payload
    (seedSessionMap
      (st.globalSessionNames.filter (fun s => s.user_id = user_id)))
    sid t h
  obtain ⟨v, hv, hvt⟩ := Option.map_eq_some'.mp hl
  have hfind := find_values_of_lookup user_id _ inv sid v hv
  unfold sessionNameSync catalogFind
  dsimp only
  rw [find?_append_left _ _ _ v hfind, Option.map_some', hvt]

theorem C7_witness :
    ((([⟨"15", "Debugging crash", "2024-01-02"⟩,
        ⟨"14", "Bug triage", "2024-01-03"⟩] : List RSession).filter
          (fun r => r.S_id = "15")).map (·.title) = ["Debugging crash"]) ∧
    (catalogFind
        (sessionNameSync "atul"
          [⟨"15", "Debugging crash", "2024-01-02"⟩,
           ⟨"14", "Bug triage", "2024-01-03"⟩]
          { baseState with globalSessionNames :=
              [{ session_id := "15", title := "New Session 15",
                 user_id := "atul", current_chat_id := none,
                 total_chats := some 1, created_at := "2024-01-01",
                 updated_at := "2024-01-01", source := some "local" }] }).2
        "atul" "15").map (·.title) = some "Debugging crash" :=
  ⟨by decide,
   C7_upstream_title_precedence
     { baseState with globalSessionNames :=
         [{ session_id := "15", title := "New Session 15",
            user_id := "atul", current_chat_id := none,
            total_chats := some 1, created_at := "2024-01-01",
            updated_at := "2024-01-01", source := some "local" }] }
     "atul"
     [⟨"15", "Debugging crash", "2024-01-02"⟩,
      ⟨"14", "Bug triage", "2024-01-03"⟩]
     "15" "Debugging crash" (by decide)⟩

/-! ### Thinking soundness (C6): the retroactive-move protocol -/

/-- The relation the thinking processor maintains between a token buffer
and the pending stream contents `acc` emitted since the last move: when
thinking is open the recorded pending tokens are exactly `acc`; before
thinking ever starts nothing is pending; and thinking open implies
thinking started. -/
def bufOK (acc : List String) (b : TokenBuffer) : Prop :=
  (b.isInThinking = true → b.pendingThinkingTokens = acc) ∧
  (b.hasThinkingStarted = false → b.pendingThinkingTokens = [] ∧ acc = []) ∧
  (b.isInThinking = true → b.hasThinkingStarted = true)

theorem pendingFold_append (acc : List String) (l₁ l₂ : List ChatEvent) :
    pendingFold acc (l₁ ++ l₂) = pendingFold (pendingFold acc l₁) l₂ := by
  unfold pendingFold
  rw [List.foldl_append]

theorem goodTrace_append (evs₂ : List ChatEvent) :
    ∀ (acc : List String) (evs₁ : List ChatEvent), goodTrace acc evs₁ →
      goodTrace (pendingFold acc evs₁) evs₂ →
      goodTrace acc (evs₁ ++ evs₂) := by
  intro acc evs₁
  induction evs₁ generalizing acc with
  | nil => intro _ h₂; exact h₂
  | cons e rest ih =>
    intro h₁ h₂
    cases e with
    | stream room c pend mid =>
      cases pend with
      | false => exact ih acc h₁ h₂
      | true => exact ih (acc ++ [c]) h₁ h₂
    | moveToThinking room content mid pend =>
      obtain ⟨hne, hpd, hnx, hrest⟩ := h₁
      cases rest with
      | nil => exact False.elim hnx
      | cons e₀ rest₀ =>
        cases e₀ with
        | thinkingComplete r =>
          exact ⟨hne, hpd, True.intro, ih [] hrest h₂⟩
        | stream a b c d => exact False.elim hnx
        | moveToThinking a b c d => exact False.elim hnx
        | complete a b c => exact False.elim hnx
        | cleanupGeneration a b => exact False.elim hnx
    | thinkingComplete room => exact ih acc h₁ h₂
    | complete room ct tot => exact ih acc h₁ h₂
    | cleanupGeneration room reason => exact ih acc h₁ h₂

theorem processAfterThinkingEnd_isInThinking (rt : TagPair) (gpt : Bool)
    (afterThinking : String) (evs : List ChatEvent)
    (hist : List (String × List Message)) (b₃ : TokenBuffer) :
    (processAfterThinkingEnd rt gpt afterThinking evs hist
      b₃).buffer.isInThinking = b₃.isInThinking := by
  unfold processAfterThinkingEnd
  split
  · split
    · rfl
    · rfl
  · split
    · rfl
    · rfl

theorem processAfterThinkingEnd_hasThinkingStarted (rt : TagPair)
    (gpt : Bool) (afterThinking : String) (evs : List ChatEvent)
    (hist : List (String × List Message)) (b₃ : TokenBuffer) :
    (processAfterThinkingEnd rt gpt afterThinking evs hist
      b₃).buffer.hasThinkingStarted = b₃.hasThinkingStarted := by
  unfold processAfterThinkingEnd
  split
  · split
    · rfl
    · rfl
  · split
    · rfl
    · rfl

theorem processAfterThinkingEnd_model (rt : TagPair) (gpt : Bool)
    (afterThinking : String) (evs : List ChatEvent)
    (hist : List (String × List Message)) (b₃ : TokenBuffer) :
    (processAfterThinkingEnd rt gpt afterThinking evs hist
      b₃).buffer.model = b₃.model := by
  unfold processAfterThinkingEnd
  split
  · split
    · rfl
    · rfl
  · split
    · rfl
    · rfl

theorem pendingEmit_good (tt : TagPair) (token roomId : String)
    (b : TokenBuffer) (acc : List String) :
    goodTrace acc (pendingEmit tt token roomId b) := by
  unfold pendingEmit
  split
  · exact True.intro
  · exact True.intro

theorem bufAccum_pending (tt : TagPair) (token roomId : String)
    (b : TokenBuffer) :
    (bufAccum tt token b).pendingThinkingTokens =
      pendingFold b.pendingThinkingTokens (pendingEmit tt token roomId b) := by
  by_cases h : thinkPush tt token = true
  · simp only [bufAccum, pendingEmit, if_pos h]
    rfl
  · simp only [bufAccum, pendingEmit, if_neg h]
    rfl

theorem bufAccum_hasThinkingStarted (tt : TagPair) (token : String)
    (b : TokenBuffer) :
    (bufAccum tt token b).hasThinkingStarted = b.hasThinkingStarted := by
  unfold bufAccum
  split
  · rfl
  · rfl

theorem bufAccum_model (tt : TagPair) (token : String) (b : TokenBuffer) :
    (bufAccum tt token b).model = b.model := by
  unfold bufAccum
  split
  · rfl
  · rfl

theorem finishThinkingEnd_good (rt : TagPair) (gpt : Bool) (endIndex : Int)
    (skip sessionKey roomId chatId sessionId : String)
    (evs₁ : List ChatEvent) (hist : List (String × List Message))
    (b₂ : TokenBuffer) (acc : List String)
    (hgood : goodTrace acc evs₁)
    (hpend : b₂.pendingThinkingTokens = pendingFold acc evs₁)
    (hts : b₂.hasThinkingStarted = true) :
    goodTrace acc (finishThinkingEnd rt gpt endIndex skip sessionKey roomId
        chatId sessionId evs₁ hist b₂).events ∧
    bufOK (pendingFold acc (finishThinkingEnd rt gpt endIndex skip
        sessionKey roomId chatId sessionId evs₁ hist b₂).events)
      (finishThinkingEnd rt gpt endIndex skip sessionKey roomId chatId
        sessionId evs₁ hist b₂).buffer ∧
    (finishThinkingEnd rt gpt endIndex skip sessionKey roomId chatId
      sessionId evs₁ hist b₂).buffer.model = b₂.model := by
  unfold finishThinkingEnd
  split
  · next hX =>
    rw [processAfterThinkingEnd_events]
    refine ⟨?_, ⟨fun h => ?_, fun h => ?_, fun h => ?_⟩, ?_⟩
    · exact goodTrace_append _ acc evs₁ hgood ⟨hX, hpend, True.intro,
        True.intro⟩
    · rw [processAfterThinkingEnd_isInThinking] at h
      simp [closeThinkingBuffer] at h
    · rw [processAfterThinkingEnd_hasThinkingStarted] at h
      simp [closeThinkingBuffer, hts] at h
    · rw [processAfterThinkingEnd_isInThinking] at h
      simp [closeThinkingBuffer] at h
    · rw [processAfterThinkingEnd_model]
      rfl
  · next hX =>
    rw [processAfterThinkingEnd_events]
    refine ⟨hgood, ⟨fun h => ?_, fun h => ?_, fun h => ?_⟩, ?_⟩
    · rw [processAfterThinkingEnd_isInThinking] at h
      simp [closeThinkingBuffer] at h
    · rw [processAfterThinkingEnd_hasThinkingStarted] at h
      simp [closeThinkingBuffer, hts] at h
    · rw [processAfterThinkingEnd_isInThinking] at h
      simp [closeThinkingBuffer] at h
    · rw [processAfterThinkingEnd_model]
      rfl

theorem processThinkingStart_good (tt : TagPair)
    (sessionKey roomId : String) (now : Nat)
    (hist : List (String × List Message)) (b : TokenBuffer)
    (acc : List String)
    (hts : b.hasThinkingStarted = false) (hb : bufOK acc b) :
    goodTrace acc
      (processThinkingStart tt sessionKey roomId now hist b).events ∧
    bufOK (pendingFold acc
        (processThinkingStart tt sessionKey roomId now hist b).events)
      (processThinkingStart tt sessionKey roomId now hist b).buffer ∧
    (processThinkingStart tt sessionKey roomId now hist b).buffer.model
      = b.model := by
  obtain ⟨hpd, hacc⟩ := hb.2.1 hts
  unfold processThinkingStart
  split
  · exact ⟨True.intro, hb, rfl⟩
  · refine ⟨?_, ?_, rfl⟩
    · split
      · exact True.intro
      · exact True.intro
    · split
      · rw [hacc]
        exact ⟨fun _ => hpd, fun h => absurd h (by simp),
          fun _ => rfl⟩
      · rw [hacc]
        exact ⟨fun _ => hpd, fun h => absurd h (by simp),
          fun _ => rfl⟩

set_option linter.constructorNameAsVariable false in
set_option maxHeartbeats 1600000 in
theorem processTokenInThinking_good (tt rt : TagPair)
    (token sessionKey roomId chatId sessionId : String)
    (hist : List (String × List Message)) (b : TokenBuffer)
    (acc : List String)
    ( _hin : b.isInThinking = true) (hts : b.hasThinkingStarted = true)
    (hp : b.pendingThinkingTokens = acc) :
    goodTrace acc (processTokenInThinking tt rt token sessionKey roomId
        chatId sessionId hist b).events ∧
    bufOK (pendingFold acc (processTokenInThinking tt rt token sessionKey
        roomId chatId sessionId hist b).events)
      (processTokenInThinking tt rt token sessionKey roomId chatId
        sessionId hist b).buffer ∧
    (processTokenInThinking tt rt token sessionKey roomId chatId sessionId
      hist b).buffer.model = b.model := by
  subst hp
  have hba : (bufAccum tt token b).hasThinkingStarted = true :=
    (bufAccum_hasThinkingStarted tt token b).trans hts
  unfold processTokenInThinking
  split
  · obtain ⟨h₁, h₂, h₃⟩ := finishThinkingEnd_good rt true
      (jsIndexOf (bufAccum tt token b).thinkingContent gptOssResponseSignal)
      gptOssResponseSignal sessionKey roomId chatId sessionId
      (pendingEmit tt token roomId b) hist (bufAccum tt token b)
      b.pendingThinkingTokens
      (pendingEmit_good tt token roomId b b.pendingThinkingTokens)
      (bufAccum_pending tt token roomId b) hba
    exact ⟨h₁, h₂, h₃.trans (bufAccum_model tt token b)⟩
  · split
    · obtain ⟨h₁, h₂, h₃⟩ := finishThinkingEnd_good rt false
        (jsIndexOf (bufAccum tt token b).thinkingContent tt.end_)
        tt.end_ sessionKey roomId chatId sessionId
        (pendingEmit tt token roomId b) hist (bufAccum tt token b)
        b.pendingThinkingTokens
        (pendingEmit_good tt token roomId b b.pendingThinkingTokens)
        (bufAccum_pending tt token roomId b) hba
      exact ⟨h₁, h₂, h₃.trans (bufAccum_model tt token b)⟩
    · refine ⟨pendingEmit_good tt token roomId b b.pendingThinkingTokens,
        ⟨fun _ => bufAccum_pending tt token roomId b, fun h => ?_,
          fun _ => hba⟩, bufAccum_model tt token b⟩
      rw [bufAccum_hasThinkingStarted, hts] at h
      exact absurd h (by simp)

theorem processResponsePhase_good (rt : TagPair) (token roomId : String)
    (hist : List (String × List Message)) (b : TokenBuffer)
    (acc : List String) (hin : b.isInThinking = false)
    (h₂ : b.hasThinkingStarted = false →
      b.pendingThinkingTokens = [] ∧ acc = []) :
    goodTrace acc (processResponsePhase rt token roomId hist b).events ∧
    bufOK (pendingFold acc
        (processResponsePhase rt token roomId hist b).events)
      (processResponsePhase rt token roomId hist b).buffer ∧
    (processResponsePhase rt token roomId hist b).buffer.model = b.model := by
  unfold processResponsePhase
  split
  · refine ⟨?_, ?_, rfl⟩
    · split
      · exact True.intro
      · exact True.intro
    · split
      · exact ⟨fun h => absurd h (by simp [hin]),
          fun h => ⟨(h₂ h).1, (h₂ h).2⟩,
          fun h => absurd h (by simp [hin])⟩
      · exact ⟨fun h => absurd h (by simp [hin]),
          fun h => ⟨(h₂ h).1, (h₂ h).2⟩,
          fun h => absurd h (by simp [hin])⟩
  · split
    · exact ⟨True.intro,
        ⟨fun h => absurd h (by simp [hin]),
          fun h => ⟨(h₂ h).1, (h₂ h).2⟩,
          fun h => absurd h (by simp [hin])⟩, rfl⟩
    · split
      · exact ⟨True.intro,
          ⟨fun h => absurd h (by simp [hin]),
            fun h => ⟨(h₂ h).1, (h₂ h).2⟩,
            fun h => absurd h (by simp [hin])⟩, rfl⟩
      · exact ⟨True.intro,
          ⟨fun h => absurd h (by simp [hin]),
            fun h => ⟨(h₂ h).1, (h₂ h).2⟩,
            fun h => absurd h (by simp [hin])⟩, rfl⟩

theorem processTokenCore_good (cfg : ModelConfig)
    (token sessionKey roomId chatId sessionId : String) (now : Nat)
    (hist : List (String × List Message)) (b : TokenBuffer)
    (acc : List String) (hb : bufOK acc b) :
    goodTrace acc (processTokenCore cfg token sessionKey roomId chatId
        sessionId now hist b).events ∧
    bufOK (pendingFold acc (processTokenCore cfg token sessionKey roomId
        chatId sessionId now hist b).events)
      (processTokenCore cfg token sessionKey roomId chatId sessionId now
        hist b).buffer ∧
    (processTokenCore cfg token sessionKey roomId chatId sessionId now
      hist b).buffer.model = b.model := by
  unfold processTokenCore
  split
  · next hc =>
    have hts : b.hasThinkingStarted = false := by
      cases hh : b.hasThinkingStarted
      · rfl
      · exact absurd hh hc.2.2
    exact processThinkingStart_good cfg.thinking_tags sessionKey roomId now
      hist b acc hts hb
  · split
    · next hin =>
      exact processTokenInThinking_good cfg.thinking_tags cfg.response_tags
        token sessionKey roomId chatId sessionId hist b acc hin
        (hb.2.2 hin) (hb.1 hin)
    · next hnin =>
      have hin : b.isInThinking = false := by
        cases hh : b.isInThinking
        · rfl
        · exact absurd hh hnin
      exact processResponsePhase_good cfg.response_tags token roomId hist b
        acc hin hb.2.1

theorem preparedBuffer_eq (sessionKey modelId token : String)
    (buffers : List (String × TokenBuffer)) (b₀ : TokenBuffer)
    (hb : (match lookupA buffers sessionKey with
           | some b => b
           | none => freshTokenBuffer (getModelNameFromId modelId)) = b₀)
    (hm : b₀.model = getModelNameFromId modelId) :
    preparedBuffer sessionKey modelId token buffers =
      { b₀ with
        tokens := b₀.tokens ++ [token],
        fullContent := b₀.fullContent ++ token } := by
  simp only [preparedBuffer]
  rw [hb, if_neg (not_not_intro hm)]

theorem processTokenStreamThinking_good
    (token sessionKey modelId roomId chatId sessionId : String) (now : Nat)
    (hist : List (String × List Message))
    (buffers : List (String × TokenBuffer)) (acc : List String)
    (htok : ¬ token = "")
    (hsome : ∀ b, lookupA buffers sessionKey = some b →
      b.model = getModelNameFromId modelId ∧ bufOK acc b)
    (hnone : lookupA buffers sessionKey = none → acc = []) :
    goodTrace acc (processTokenStreamThinking token sessionKey modelId
        roomId chatId sessionId now hist buffers).1.events ∧
    (∀ b', lookupA (processTokenStreamThinking token sessionKey modelId
        roomId chatId sessionId now hist buffers).2 sessionKey = some b' →
      bufOK (pendingFold acc (processTokenStreamThinking token sessionKey
          modelId roomId chatId sessionId now hist buffers).1.events) b' ∧
      b'.model = getModelNameFromId modelId) ∧
    (lookupA (processTokenStreamThinking token sessionKey modelId roomId
        chatId sessionId now hist buffers).2 sessionKey = none →
      pendingFold acc (processTokenStreamThinking token sessionKey modelId
        roomId chatId sessionId now hist buffers).1.events = []) := by
  have hkey : bufOK acc (preparedBuffer sessionKey modelId token buffers) ∧
      (preparedBuffer sessionKey modelId token buffers).model
        = getModelNameFromId modelId := by
    cases hl : lookupA buffers sessionKey with
    | none =>
      have hacc := hnone hl
      have hpb := preparedBuffer_eq sessionKey modelId token buffers
        (freshTokenBuffer (getModelNameFromId modelId)) (by rw [hl]) rfl
      rw [hpb, hacc]
      refine ⟨⟨fun h => absurd h (by simp [freshTokenBuffer]),
        fun _ => ⟨rfl, rfl⟩,
        fun h => absurd h (by simp [freshTokenBuffer])⟩, rfl⟩
    | some b =>
      obtain ⟨hm, hbo⟩ := hsome b hl
      have hpb := preparedBuffer_eq sessionKey modelId token buffers b
        (by rw [hl]) hm
      rw [hpb]
      exact ⟨hbo, hm⟩
  obtain ⟨hbo, hm⟩ := hkey
  unfold processTokenStreamThinking
  rw [if_neg htok]
  split
  · refine ⟨True.intro, ?_, ?_⟩
    · intro b' hb'
      rw [lookupA_setA_self] at hb'
      injection hb' with hb''
      subst hb''
      exact ⟨hbo, hm⟩
    · intro hb'
      rw [lookupA_setA_self] at hb'
      simp at hb'
  · split
    · refine ⟨True.intro, ?_, ?_⟩
      · intro b' hb'
        rw [lookupA_setA_self] at hb'
        injection hb' with hb''
        subst hb''
        exact ⟨hbo, hm⟩
      · intro hb'
        rw [lookupA_setA_self] at hb'
        simp at hb'
    · obtain ⟨h₁, h₂, h₃⟩ := processTokenCore_good _ token sessionKey
        roomId chatId sessionId now hist
        (preparedBuffer sessionKey modelId token buffers) acc hbo
      refine ⟨h₁, ?_, ?_⟩
      · intro b' hb'
        rw [lookupA_setA_self] at hb'
        injection hb' with hb''
        subst hb''
        exact ⟨h₂, h₃.trans hm⟩
      · intro hb'
        rw [lookupA_setA_self] at hb'
        simp at hb'

theorem callerEmit_good (roomId ret : String) (acc : List String) :
    goodTrace acc (callerEmit roomId ret) := by
  unfold callerEmit
  split
  · exact True.intro
  · exact True.intro

theorem pendingFold_callerEmit (roomId ret : String) (acc : List String) :
    pendingFold acc (callerEmit roomId ret) = acc := by
  unfold callerEmit
  split
  · rfl
  · rfl

theorem sessionModelOf_eq (st : GlobalState) (sessionKey : String) :
    getModelNameFromId (streamingModelId st sessionKey)
      = sessionModelOf st sessionKey := by
  unfold streamingModelId sessionModelOf
  cases lookupA st.globalStreamingSessions sessionKey
  · rfl
  · rfl

theorem handlerInv_none (ctx : ConsumerCtx) (st : GlobalState)
    (trace : List ChatEvent)
    (hl : lookupA st.tokenBuffers (ctx.userId ++ "_" ++ ctx.sessionId)
      = none) :
    handlerInv ctx st trace ↔ pendingFold [] trace = [] := by
  simp only [handlerInv, hl]

theorem handlerInv_some (ctx : ConsumerCtx) (st : GlobalState)
    (trace : List ChatEvent) (b : TokenBuffer)
    (hl : lookupA st.tokenBuffers (ctx.userId ++ "_" ++ ctx.sessionId)
      = some b) :
    handlerInv ctx st trace ↔
      ((b.isInThinking = true →
          b.pendingThinkingTokens = pendingFold [] trace) ∧
        (b.hasThinkingStarted = false →
          b.pendingThinkingTokens = [] ∧ pendingFold [] trace = []) ∧
        (b.isInThinking = true → b.hasThinkingStarted = true) ∧
        b.model = sessionModelOf st (ctx.userId ++ "_" ++ ctx.sessionId)) := by
  simp only [handlerInv, hl]

theorem handlerContent_inv (ctx : ConsumerCtx) (st : GlobalState)
    (mc : Nat) (msg : BusMessage) (now : Nat) (trace : List ChatEvent)
    (hinv : handlerInv ctx st trace)
    (hcont : ¬ extractResponseContent msg = "") :
    goodTrace (pendingFold [] trace)
      (handlerContent ctx st mc msg now).2 ∧
    handlerInv ctx (handlerContent ctx st mc msg now).1
      (trace ++ (handlerContent ctx st mc msg now).2) := by
  have hsome : ∀ b, lookupA
      (handlerPreState ctx st mc msg).tokenBuffers (historyKeyOf ctx)
        = some b →
      b.model = getModelNameFromId (streamingModelId
        (handlerPreState ctx st mc msg) (historyKeyOf ctx)) ∧
      bufOK (pendingFold [] trace) b := by
    intro b hb
    obtain ⟨h₁, h₂, h₃, h₄⟩ := (handlerInv_some ctx st trace b hb).mp hinv
    exact ⟨h₄.trans (sessionModelOf_eq st _).symm, h₁, h₂, h₃⟩
  have hnone : lookupA
      (handlerPreState ctx st mc msg).tokenBuffers (historyKeyOf ctx)
        = none →
      pendingFold [] trace = [] := by
    intro hb
    exact (handlerInv_none ctx st trace hb).mp hinv
  obtain ⟨hW₁, hW₂, hW₃⟩ := processTokenStreamThinking_good
    (extractResponseContent msg) (historyKeyOf ctx)
    (streamingModelId (handlerPreState ctx st mc msg) (historyKeyOf ctx))
    ctx.roomId ctx.chatId ctx.sessionId now
    (handlerPreState ctx st mc msg).globalChatHistory
    (handlerPreState ctx st mc msg).tokenBuffers
    (pendingFold [] trace) hcont hsome hnone
  have hev : (handlerContent ctx st mc msg now).2
      = (handlerThinkingResult ctx st mc msg now).1.events
        ++ callerEmit ctx.roomId
          (handlerThinkingResult ctx st mc msg now).1.ret := rfl
  have htr : handlerThinkingResult ctx st mc msg now
      = processTokenStreamThinking (extractResponseContent msg)
          (historyKeyOf ctx)
          (streamingModelId (handlerPreState ctx st mc msg)
            (historyKeyOf ctx))
          ctx.roomId ctx.chatId ctx.sessionId now
          (handlerPreState ctx st mc msg).globalChatHistory
          (handlerPreState ctx st mc msg).tokenBuffers := rfl
  constructor
  · rw [hev, htr]
    exact goodTrace_append _ _ _ hW₁ (callerEmit_good _ _ _)
  · cases hl : lookupA
        (handlerThinkingResult ctx st mc msg now).2
        (ctx.userId ++ "_" ++ ctx.sessionId) with
    | none =>
      refine (handlerInv_none ctx _ _ hl).mpr ?_
      have hend := hW₃ (by rw [htr] at hl; exact hl)
      rw [pendingFold_append, hev, htr, pendingFold_append,
        pendingFold_callerEmit]
      exact hend
    | some b' =>
      obtain ⟨⟨h₁, h₂, h₃⟩, hm'⟩ := hW₂ b' (by rw [htr] at hl; exact hl)
      refine (handlerInv_some ctx _ _ b' hl).mpr ?_
      rw [pendingFold_append, hev, htr, pendingFold_append,
        pendingFold_callerEmit]
      exact ⟨h₁, h₂, h₃, hm'.trans (sessionModelOf_eq st _)⟩

theorem handlerStep_inv (ctx : ConsumerCtx) (st : GlobalState)
    (loc : HandlerLocal) (msg : BusMessage) (now : Nat)
    (trace : List ChatEvent) (hinv : handlerInv ctx st trace) :
    goodTrace (pendingFold [] trace) (handlerStep ctx st loc msg now).2.2 ∧
    handlerInv ctx (handlerStep ctx st loc msg now).1
      (trace ++ (handlerStep ctx st loc msg now).2.2) := by
  unfold handlerStep
  split
  · exact ⟨True.intro, by rw [List.append_nil]; exact hinv⟩
  · split
    · exact ⟨True.intro, by rw [List.append_nil]; exact hinv⟩
    · split
      · refine ⟨True.intro, ?_⟩
        cases hl : lookupA st.tokenBuffers
            (ctx.userId ++ "_" ++ ctx.sessionId) with
        | none =>
          have h := (handlerInv_none ctx st trace hl).mp hinv
          refine (handlerInv_none ctx _ _ hl).mpr ?_
          rw [pendingFold_append, h]
          rfl
        | some b =>
          obtain ⟨h₁, h₂, h₃, h₄⟩ := (handlerInv_some ctx st trace b
            hl).mp hinv
          refine (handlerInv_some ctx _ _ b hl).mpr ?_
          rw [pendingFold_append]
          exact ⟨h₁, h₂, h₃, h₄⟩
      · split
        · exact ⟨True.intro, by rw [List.append_nil]; exact hinv⟩
        · next hcont =>
          exact handlerContent_inv ctx st (loc.messageCount + 1) msg now
            trace hinv hcont

theorem runHandler_good (ctx : ConsumerCtx) (msgs : List BusMessage) :
    ∀ (st : GlobalState) (loc : HandlerLocal) (trace : List ChatEvent),
      handlerInv ctx st trace →
      goodTrace (pendingFold [] trace)
        (runHandler ctx st loc msgs).2.2 := by
  induction msgs with
  | nil => intro st loc trace _; exact True.intro
  | cons m rest ih =>
    intro st loc trace hinv
    obtain ⟨hg, hinv'⟩ := handlerStep_inv ctx st loc m loc.messageCount
      trace hinv
    have h₂ := ih (handlerStep ctx st loc m loc.messageCount).1
      (handlerStep ctx st loc m loc.messageCount).2.1
      (trace ++ (handlerStep ctx st loc m loc.messageCount).2.2) hinv'
    rw [pendingFold_append] at h₂
    exact goodTrace_append _ _ _ hg h₂

/-! ### C6 example run -/

/-- The consumer context of the C6 example run. -/
def C6ctx : ConsumerCtx :=
  { userId := "u", sessionId := "9", chatId := "1", instanceId := none,
    roomId := "r", prompt := "hi" }

/-- A state whose streaming-session table binds the consumer's session to
the thinking-capable model `"7"`. -/
def C6state : GlobalState :=
  { baseState with globalStreamingSessions :=
      [("u_9", { modelId := "7", chatId := "1", instanceId := none,
                 sessionId := "9", userId := "u", consumerTag := "t" })] }

/-- The Bus deliveries of the C6 example run: a `<think>`-wrapped interior
whose tokens arrive one at a time, the separator arriving as its own
whitespace token. -/
def C6msgs : List BusMessage :=
  ["<think>", "a", " ", "b", "</think>"].map (fun t =>
    { mtype := some "token", data := some t, chat_id := some "1" })

set_option maxHeartbeats 4000000 in
/-- C6 (counterexample): in the example run the retroactive move carries
`content = "a b"` (the accumulated thinking interior, whitespace
included), but the prior `stream` emissions are exactly `"a"` and `"b"` —
the whitespace token is withheld by the trim guard — so their
concatenation `"ab"` does not contain the move's content as a contiguous
substring; the spec's P6 substring clause is false. -/
theorem C6_counterexample :
    (runHandler C6ctx C6state ⟨0, false⟩ C6msgs).2.2 =
      [ChatEvent.stream "r" "a" true (some "thinking_u_9_0"),
       ChatEvent.stream "r" "b" true (some "thinking_u_9_0"),
       ChatEvent.moveToThinking "r" "a b" (some "thinking_u_9_0")
         ["a", "b"],
       ChatEvent.thinkingComplete "r"] ∧
    streamContents
        [ChatEvent.stream "r" "a" true (some "thinking_u_9_0"),
         ChatEvent.stream "r" "b" true (some "thinking_u_9_0")]
      = ["a", "b"] ∧
    jsIncludes (String.join ["a", "b"]) "a b" = false := by
  exact ⟨by decide, by decide, by decide⟩

/-- C6 (amended): over any run of the chat consumer from a state whose
token-buffer invariant holds of the empty trace, every emitted
`move_to_thinking` event carries a non-empty content, lists in
`pendingTokens` exactly the pending-marked `stream` emissions since
thinking began (equivalently, since the previous move), and is
immediately followed by `thinking_complete`.  The spec's further clause —
that the move's content is a contiguous substring of the concatenated
prior stream emissions — is dropped: it fails whenever the interior
contains a whitespace-only token (see the counterexample). -/
theorem C6_amended_thinking_soundness (ctx : ConsumerCtx)
    (st : GlobalState) (loc : HandlerLocal) (msgs : List BusMessage)
    (hinv : handlerInv ctx st []) :
    goodTrace [] (runHandler ctx st loc msgs).2.2 :=
  runHandler_good ctx msgs st loc [] hinv

set_option maxHeartbeats 1600000 in
/-- Witness for C6: the invariant holds of the example state (its
token-buffer table is empty), and the theorem applies to a one-delivery
run from it. -/
theorem C6_witness :
    handlerInv C6ctx C6state [] ∧
    goodTrace [] (runHandler C6ctx C6state ⟨0, false⟩
      [{ mtype := some "token", data := some "hi",
         chat_id := some "1" }]).2.2 :=
  ⟨rfl, C6_amended_thinking_soundness C6ctx C6state ⟨0, false⟩
    [{ mtype := some "token", data := some "hi", chat_id := some "1" }]
    rfl⟩

end Orchestrator
